import Mathlib

/-!
Verification of the `controle-bolao` repository against its specification.

The Python modules are shallowly embedded as Lean definitions:

* `src/utils/pontuacao.py`   — scoring engine (`calcular_pontuacao` and the
  rule predicates `verificar_*`);
* `src/utils/normalizacao.py` — name normalization and fuzzy matching;
* `src/utils/parser.py`      — round inference (`inferir_rodada`);
* `src/scripts/importar_palpites.py` — prediction validation and storage
  update.

Modelling conventions, used uniformly below:

* Python dicts with a fixed shape are embedded as structures.  A dict key
  that the code reads with a bare `.get(k)` (so that a missing key behaves
  as `None`) is embedded as an `Option` field; keys that are always present
  on the values actually passed around (e.g. `'id'`, `'mandante'`) are
  embedded as total fields, so the code's `.get(k, default)` fallbacks for
  them never fire.  Dynamic-shape guards such as `'rodadas' not in tabela`
  are vacuous in the typed embedding and are noted where dropped.
* Python numbers are embedded as `Int` (goal counts, round numbers) and
  `Rat` (points; the spec declares points to be rational numbers).
* Python sets of strings are embedded as `Finset String`; membership is the
  only operation used, so iteration order is irrelevant.
-/

namespace Bolao

/-! ## Data model for scoring (`src/utils/pontuacao.py`)

A prediction dict carries `'palpite_mandante'`/`'palpite_visitante'`, a
finalized result dict carries `'gols_mandante'`/`'gols_visitante'`.  The code
reads them either with `.get(k)` (plain, `None` when absent) or with
`.get(k, 0)`; we embed the fields as `Option Int` and mirror each access. -/

structure Palpite where
  palpite_mandante : Option Int
  palpite_visitante : Option Int
  deriving Repr, DecidableEq

structure Resultado where
  gols_mandante : Option Int
  gols_visitante : Option Int
  deriving Repr, DecidableEq

/-- One rule's sub-dict inside the rule-configuration dict: any of the keys
`'pontos'`, `'pontos_base'`, `'codigo'` may be absent. -/
structure RegraConfig where
  pontos : Option Rat := none
  pontos_base : Option Rat := none
  codigo : Option String := none
  deriving Repr, DecidableEq

/-- The rule-configuration dict `regras`.  Each field models the sub-dict
under the corresponding key; `none` models an absent key.  The key
`'palpite_ausente'` may be present in a configuration file even though
`calcular_pontuacao` never reads it. -/
structure Regras where
  resultado_inverso : Option RegraConfig := none
  resultado_exato : Option RegraConfig := none
  vitoria_gols_um_time : Option RegraConfig := none
  vitoria_diferenca_gols : Option RegraConfig := none
  vitoria_soma_gols : Option RegraConfig := none
  apenas_vitoria : Option RegraConfig := none
  apenas_empate : Option RegraConfig := none
  gols_um_time : Option RegraConfig := none
  soma_gols : Option RegraConfig := none
  palpite_ausente : Option RegraConfig := none
  deriving Repr, DecidableEq

/-- `regras.get(nome, {})`: the sub-dict under a rule key, an empty dict when
the key is absent. -/
def getRegra (o : Option RegraConfig) : RegraConfig :=
  o.getD {}

/-- The empty configuration dict `{}`: every rule falls back to its built-in
default points and code. -/
def regrasDefault : Regras := {}

/-! ### The rule predicates (`verificar_*`) -/

/-- `verificar_resultado_exato`: the predicted score equals the result, as a
plain `==` on the `.get(...)` values (absent keys compare as `None`). -/
def verificar_resultado_exato (palpite : Palpite) (resultado : Resultado) : Bool :=
  palpite.palpite_mandante == resultado.gols_mandante &&
    palpite.palpite_visitante == resultado.gols_visitante

/-- `verificar_vitoria_gols_um_time`: correct winner and exactly one team's
goal count correct (XOR). -/
def verificar_vitoria_gols_um_time (palpite : Palpite) (resultado : Resultado) : Bool :=
  let palp_mandante := palpite.palpite_mandante.getD 0
  let palp_visitante := palpite.palpite_visitante.getD 0
  let res_mandante := resultado.gols_mandante.getD 0
  let res_visitante := resultado.gols_visitante.getD 0
  if palp_mandante > palp_visitante && res_mandante > res_visitante then
    (palp_mandante == res_mandante) != (palp_visitante == res_visitante)
  else if palp_visitante > palp_mandante && res_visitante > res_mandante then
    (palp_mandante == res_mandante) != (palp_visitante == res_visitante)
  else
    false

/-- `verificar_vitoria_diferenca_gols`: correct winner and correct goal
difference. -/
def verificar_vitoria_diferenca_gols (palpite : Palpite) (resultado : Resultado) : Bool :=
  let palp_mandante := palpite.palpite_mandante.getD 0
  let palp_visitante := palpite.palpite_visitante.getD 0
  let res_mandante := resultado.gols_mandante.getD 0
  let res_visitante := resultado.gols_visitante.getD 0
  if palp_mandante > palp_visitante && res_mandante > res_visitante then
    palp_mandante - palp_visitante == res_mandante - res_visitante
  else if palp_visitante > palp_mandante && res_visitante > res_mandante then
    palp_mandante - palp_visitante == res_mandante - res_visitante
  else
    false

/-- `verificar_vitoria_soma_gols`: correct winner and correct total goals. -/
def verificar_vitoria_soma_gols (palpite : Palpite) (resultado : Resultado) : Bool :=
  let palp_mandante := palpite.palpite_mandante.getD 0
  let palp_visitante := palpite.palpite_visitante.getD 0
  let res_mandante := resultado.gols_mandante.getD 0
  let res_visitante := resultado.gols_visitante.getD 0
  if palp_mandante > palp_visitante && res_mandante > res_visitante then
    palp_mandante + palp_visitante == res_mandante + res_visitante
  else if palp_visitante > palp_mandante && res_visitante > res_mandante then
    palp_mandante + palp_visitante == res_mandante + res_visitante
  else
    false

/-- `verificar_apenas_vitoria`: the winner was predicted correctly. -/
def verificar_apenas_vitoria (palpite : Palpite) (resultado : Resultado) : Bool :=
  let palp_mandante := palpite.palpite_mandante.getD 0
  let palp_visitante := palpite.palpite_visitante.getD 0
  let res_mandante := resultado.gols_mandante.getD 0
  let res_visitante := resultado.gols_visitante.getD 0
  (palp_mandante > palp_visitante && res_mandante > res_visitante) ||
    (palp_visitante > palp_mandante && res_visitante > res_mandante)

/-- `verificar_apenas_empate`: both the prediction and the result are draws. -/
def verificar_apenas_empate (palpite : Palpite) (resultado : Resultado) : Bool :=
  let palp_mandante := palpite.palpite_mandante.getD 0
  let palp_visitante := palpite.palpite_visitante.getD 0
  let res_mandante := resultado.gols_mandante.getD 0
  let res_visitante := resultado.gols_visitante.getD 0
  palp_mandante == palp_visitante && res_mandante == res_visitante

/-- `verificar_gols_um_time`: exactly one goal count correct (XOR) and the
match outcome (winner or draw) not correctly predicted. -/
def verificar_gols_um_time (palpite : Palpite) (resultado : Resultado) : Bool :=
  let palp_mandante := palpite.palpite_mandante.getD 0
  let palp_visitante := palpite.palpite_visitante.getD 0
  let res_mandante := resultado.gols_mandante.getD 0
  let res_visitante := resultado.gols_visitante.getD 0
  let acertou_um_time := (palp_mandante == res_mandante) != (palp_visitante == res_visitante)
  let nao_acertou_resultado :=
    if palp_mandante > palp_visitante && res_mandante > res_visitante then false
    else if palp_visitante > palp_mandante && res_visitante > res_mandante then false
    else if palp_mandante == palp_visitante && res_mandante == res_visitante then false
    else true
  acertou_um_time && nao_acertou_resultado

/-- `verificar_soma_gols`: correct total goals, outcome not correctly
predicted, and neither goal count individually correct. -/
def verificar_soma_gols (palpite : Palpite) (resultado : Resultado) : Bool :=
  let palp_mandante := palpite.palpite_mandante.getD 0
  let palp_visitante := palpite.palpite_visitante.getD 0
  let res_mandante := resultado.gols_mandante.getD 0
  let res_visitante := resultado.gols_visitante.getD 0
  let acertou_soma := palp_mandante + palp_visitante == res_mandante + res_visitante
  let nao_acertou_resultado :=
    if palp_mandante > palp_visitante && res_mandante > res_visitante then false
    else if palp_visitante > palp_mandante && res_visitante > res_mandante then false
    else if palp_mandante == palp_visitante && res_mandante == res_visitante then false
    else true
  let nao_acertou_gols_individuais :=
    !(palp_mandante == res_mandante || palp_visitante == res_visitante)
  acertou_soma && nao_acertou_resultado && nao_acertou_gols_individuais

/-- `verificar_resultado_inverso`: the predicted score is exactly the
inverted result, excluding the draw-against-draw case. -/
def verificar_resultado_inverso (palpite : Palpite) (resultado : Resultado) : Bool :=
  let palp_mandante := palpite.palpite_mandante.getD 0
  let palp_visitante := palpite.palpite_visitante.getD 0
  let res_mandante := resultado.gols_mandante.getD 0
  let res_visitante := resultado.gols_visitante.getD 0
  palp_mandante == res_visitante && palp_visitante == res_mandante &&
    !(palp_mandante == palp_visitante && res_mandante == res_visitante)

/-- `calcular_bonus_resultado_exato`: proportional bonus `1/N`, `0.0` for
`N <= 0`. -/
def calcular_bonus_resultado_exato (total_acertos_exatos : Int) : Rat :=
  if total_acertos_exatos ≤ 0 then 0
  else 1 / (total_acertos_exatos : Rat)

/-- `calcular_pontuacao`: the ordered rule hierarchy.  Returns the points and
code of the first rule whose predicate holds, `(0, 'NP')` when none does. -/
def calcular_pontuacao (palpite : Palpite) (resultado : Resultado) (regras : Regras)
    (total_acertos_exatos : Int := 1) : Rat × String :=
  if verificar_resultado_inverso palpite resultado then
    ((getRegra regras.resultado_inverso).pontos.getD (-3),
     (getRegra regras.resultado_inverso).codigo.getD "RI")
  else if verificar_resultado_exato palpite resultado then
    ((getRegra regras.resultado_exato).pontos_base.getD 12
       + calcular_bonus_resultado_exato total_acertos_exatos,
     (getRegra regras.resultado_exato).codigo.getD "AR")
  else if verificar_vitoria_gols_um_time palpite resultado then
    ((getRegra regras.vitoria_gols_um_time).pontos.getD 7,
     (getRegra regras.vitoria_gols_um_time).codigo.getD "VG")
  else if verificar_vitoria_diferenca_gols palpite resultado then
    ((getRegra regras.vitoria_diferenca_gols).pontos.getD 6,
     (getRegra regras.vitoria_diferenca_gols).codigo.getD "VD")
  else if verificar_vitoria_soma_gols palpite resultado then
    ((getRegra regras.vitoria_soma_gols).pontos.getD 6,
     (getRegra regras.vitoria_soma_gols).codigo.getD "VS")
  else if verificar_apenas_vitoria palpite resultado then
    ((getRegra regras.apenas_vitoria).pontos.getD 5,
     (getRegra regras.apenas_vitoria).codigo.getD "AV")
  else if verificar_apenas_empate palpite resultado then
    ((getRegra regras.apenas_empate).pontos.getD 5,
     (getRegra regras.apenas_empate).codigo.getD "AE")
  else if verificar_gols_um_time palpite resultado then
    ((getRegra regras.gols_um_time).pontos.getD 2,
     (getRegra regras.gols_um_time).codigo.getD "AG")
  else if verificar_soma_gols palpite resultado then
    ((getRegra regras.soma_gols).pontos.getD 1,
     (getRegra regras.soma_gols).codigo.getD "AS")
  else
    (0, "NP")

/-- `calcular_pontuacao_palpite_ausente`: the missing-prediction penalty.
The Python function takes no arguments and returns the literal pair
`(-1.0, 'PA')`; it does not consult the rule configuration. -/
def calcular_pontuacao_palpite_ausente : Rat × String :=
  (-1, "PA")

/-! ### The rule hierarchy as an ordered list

`Regra` enumerates the nine guarded rules of `calcular_pontuacao` by their
built-in codes; `rulePred` maps each to its `verificar_*` predicate and
`ruleValue` to the `(points, code)` pair its branch returns. `ruleOrder` is
the order in which `calcular_pontuacao` consults them. -/

inductive Regra where
  | RI | AR | VG | VD | VS | AV | AE | AG | AS
  deriving Repr, DecidableEq

def rulePred : Regra → Palpite → Resultado → Bool
  | .RI => verificar_resultado_inverso
  | .AR => verificar_resultado_exato
  | .VG => verificar_vitoria_gols_um_time
  | .VD => verificar_vitoria_diferenca_gols
  | .VS => verificar_vitoria_soma_gols
  | .AV => verificar_apenas_vitoria
  | .AE => verificar_apenas_empate
  | .AG => verificar_gols_um_time
  | .AS => verificar_soma_gols

def ruleValue : Regra → Regras → Int → Rat × String
  | .RI, regras, _ =>
    ((getRegra regras.resultado_inverso).pontos.getD (-3),
     (getRegra regras.resultado_inverso).codigo.getD "RI")
  | .AR, regras, n =>
    ((getRegra regras.resultado_exato).pontos_base.getD 12
       + calcular_bonus_resultado_exato n,
     (getRegra regras.resultado_exato).codigo.getD "AR")
  | .VG, regras, _ =>
    ((getRegra regras.vitoria_gols_um_time).pontos.getD 7,
     (getRegra regras.vitoria_gols_um_time).codigo.getD "VG")
  | .VD, regras, _ =>
    ((getRegra regras.vitoria_diferenca_gols).pontos.getD 6,
     (getRegra regras.vitoria_diferenca_gols).codigo.getD "VD")
  | .VS, regras, _ =>
    ((getRegra regras.vitoria_soma_gols).pontos.getD 6,
     (getRegra regras.vitoria_soma_gols).codigo.getD "VS")
  | .AV, regras, _ =>
    ((getRegra regras.apenas_vitoria).pontos.getD 5,
     (getRegra regras.apenas_vitoria).codigo.getD "AV")
  | .AE, regras, _ =>
    ((getRegra regras.apenas_empate).pontos.getD 5,
     (getRegra regras.apenas_empate).codigo.getD "AE")
  | .AG, regras, _ =>
    ((getRegra regras.gols_um_time).pontos.getD 2,
     (getRegra regras.gols_um_time).codigo.getD "AG")
  | .AS, regras, _ =>
    ((getRegra regras.soma_gols).pontos.getD 1,
     (getRegra regras.soma_gols).codigo.getD "AS")

def ruleOrder : List Regra := [.RI, .AR, .VG, .VD, .VS, .AV, .AE, .AG, .AS]

/-! ### Helper lemmas about the predicates -/

/-- The inverted-score predicate, on score dicts with both goal counts
present, holds exactly when the goals are swapped and the result is not a
draw: under `pm = rv` and `pv = rm`, the code's "not a double draw" clause is
the same as "the result is not a draw". -/
theorem verificar_resultado_inverso_iff (pm pv rm rv : Int) :
    verificar_resultado_inverso ⟨some pm, some pv⟩ ⟨some rm, some rv⟩ = true ↔
      (pm = rv ∧ pv = rm ∧ rm ≠ rv) := by
  simp only [verificar_resultado_inverso, Option.getD_some, Bool.and_eq_true,
    beq_iff_eq, Bool.not_eq_true', Bool.and_eq_false_iff, beq_eq_false_iff_ne]
  constructor
  · rintro ⟨⟨h1, h2⟩, h3⟩
    refine ⟨h1, h2, ?_⟩
    rcases h3 with h | h <;> omega
  · rintro ⟨h1, h2, h3⟩
    exact ⟨⟨h1, h2⟩, Or.inl (by omega)⟩

/-- An exact hit excludes the inverted-score rule (an inverted exact hit
would force a draw against a draw, which the inverted rule excludes). -/
theorem inverso_eq_false_of_exato (p : Palpite) (r : Resultado)
    (h : verificar_resultado_exato p r = true) :
    verificar_resultado_inverso p r = false := by
  simp only [verificar_resultado_exato, Bool.and_eq_true, beq_iff_eq] at h
  obtain ⟨h1, h2⟩ := h
  simp only [verificar_resultado_inverso, h1, h2]
  by_cases hc : r.gols_mandante.getD 0 = r.gols_visitante.getD 0 <;>
    simp [hc]

/-! ## C1: ordered evaluation, and failure of predicate exclusivity -/

/-- C1 (counterexample): the claim that for every (prediction, result) pair
exactly one of the rule predicates holds (or none) is false: for the
prediction 2x1 against the result 2x1, four of them hold at once (exact
score, winner+difference, winner+sum, winner-only). -/
theorem c1_exclusividade_falha :
    ¬ (∀ (palpite : Palpite) (resultado : Resultado),
        (ruleOrder.countP fun k => rulePred k palpite resultado) ≤ 1) := by
  intro h
  have hc := h ⟨some 2, some 1⟩ ⟨some 2, some 1⟩
  revert hc
  decide

/-- C1 (amended): the rule predicates are not mutually exclusive, but
`calcular_pontuacao` returns the points and code of the first predicate that
holds, consulting them in the fixed order RI, AR, VG, VD, VS, AV, AE, AG,
AS, and returns `(0, "NP")` when none holds. -/
theorem calcular_pontuacao_first_match (palpite : Palpite) (resultado : Resultado)
    (regras : Regras) (n : Int) :
    calcular_pontuacao palpite resultado regras n =
      match ruleOrder.find? (fun k => rulePred k palpite resultado) with
      | some k => ruleValue k regras n
      | none => (0, "NP") := by
  simp only [calcular_pontuacao]
  split_ifs <;> simp_all [ruleOrder, List.find?, rulePred, ruleValue]

/-! ## C2: exact-score bonus -/

/-- C2: when both predicted goal counts equal the actual ones, for every
configuration and every exact-hit count `N ≥ 1`, `calcular_pontuacao`
returns exactly `basePoints + 1/N` (configured base, default 12) with the
exact-score rule's code (default `"AR"`). -/
theorem calcular_pontuacao_exato_bonus (pm pv : Int) (regras : Regras) (n : Int)
    (hn : 1 ≤ n) :
    calcular_pontuacao ⟨some pm, some pv⟩ ⟨some pm, some pv⟩ regras n =
      ((getRegra regras.resultado_exato).pontos_base.getD 12 + 1 / (n : Rat),
       (getRegra regras.resultado_exato).codigo.getD "AR") := by
  have hex : verificar_resultado_exato ⟨some pm, some pv⟩ ⟨some pm, some pv⟩ = true := by
    simp [verificar_resultado_exato]
  have hinv := inverso_eq_false_of_exato _ _ hex
  simp [calcular_pontuacao, hinv, hex, calcular_bonus_resultado_exato,
    show ¬ (n ≤ 0) by omega]

/-- C2 witness: a lone exact hit (`N = 1`) under the default configuration
scores 13 points with code `"AR"`. -/
theorem calcular_pontuacao_exato_bonus_witness :
    calcular_pontuacao ⟨some 2, some 1⟩ ⟨some 2, some 1⟩ regrasDefault 1 = (13, "AR") := by
  have h := calcular_pontuacao_exato_bonus 2 1 regrasDefault 1 (by decide)
  rw [h]
  norm_num [regrasDefault, getRegra]

/-! ## C3: inverted-score penalty -/

/-- C3: `calcular_pontuacao` applies the configured inverted-score penalty
when the predicted goals are exactly the swapped actual goals and the result
is not a draw; under the default configuration the returned code is `"RI"`
exactly in that situation (so a correctly predicted draw never yields
`"RI"`). -/
theorem calcular_pontuacao_inverso (pm pv rm rv : Int) (n : Int) :
    (∀ regras : Regras, pm = rv → pv = rm → rm ≠ rv →
      calcular_pontuacao ⟨some pm, some pv⟩ ⟨some rm, some rv⟩ regras n =
        ((getRegra regras.resultado_inverso).pontos.getD (-3),
         (getRegra regras.resultado_inverso).codigo.getD "RI"))
    ∧ ((calcular_pontuacao ⟨some pm, some pv⟩ ⟨some rm, some rv⟩ regrasDefault n).2 = "RI"
        ↔ (pm = rv ∧ pv = rm ∧ rm ≠ rv)) := by
  constructor
  · intro regras h1 h2 h3
    have hinv : verificar_resultado_inverso ⟨some pm, some pv⟩ ⟨some rm, some rv⟩ = true :=
      (verificar_resultado_inverso_iff pm pv rm rv).mpr ⟨h1, h2, h3⟩
    simp [calcular_pontuacao, hinv]
  · by_cases hc : pm = rv ∧ pv = rm ∧ rm ≠ rv
    · have hinv : verificar_resultado_inverso ⟨some pm, some pv⟩ ⟨some rm, some rv⟩ = true :=
        (verificar_resultado_inverso_iff pm pv rm rv).mpr hc
      rw [show calcular_pontuacao ⟨some pm, some pv⟩ ⟨some rm, some rv⟩ regrasDefault n
          = (-3, "RI") from by simp [calcular_pontuacao, hinv, regrasDefault, getRegra]]
      simpa using hc
    · have hinv : verificar_resultado_inverso ⟨some pm, some pv⟩ ⟨some rm, some rv⟩ = false := by
        rw [← Bool.not_eq_true, verificar_resultado_inverso_iff]
        exact hc
      simp only [calcular_pontuacao, hinv, Bool.false_eq_true, if_false]
      constructor
      · intro h
        exfalso
        revert h
        split_ifs <;> simp [regrasDefault, getRegra]
      · intro h
        exact absurd h hc

/-- C3 witness: prediction 2x1 against result 1x2 under the default
configuration scores the penalty −3 with code `"RI"`. -/
theorem calcular_pontuacao_inverso_witness :
    calcular_pontuacao ⟨some 2, some 1⟩ ⟨some 1, some 2⟩ regrasDefault 1 = (-3, "RI") := by
  have h := (calcular_pontuacao_inverso 2 1 1 2 1).1 regrasDefault rfl rfl (by decide)
  simpa [regrasDefault, getRegra] using h

/-! ## C4: configurability of rule values and codes -/

/-- A configuration that assigns custom points and code to the
missing-prediction rule `'palpite_ausente'`. -/
def regrasPAcustom : Regras :=
  { palpite_ausente := some { pontos := some (-5), codigo := some "XX" } }

/-- A configuration that assigns custom points and code to the
inverted-score rule. -/
def regrasRIcustom : Regras :=
  { resultado_inverso := some { pontos := some (-7), codigo := some "ZZ" } }

/-- C4 (counterexample): the missing-prediction penalty is not
configuration-driven.  `calcular_pontuacao_palpite_ausente` takes no
configuration and returns the fixed pair `(-1, "PA")`, so for a
configuration assigning points −5 and code `"XX"` to `'palpite_ausente'`
the claimed equality with the configured values fails. -/
theorem c4_palpite_ausente_ignora_config :
    ¬ (∀ regras : Regras,
        calcular_pontuacao_palpite_ausente =
          ((getRegra regras.palpite_ausente).pontos.getD (-1),
           (getRegra regras.palpite_ausente).codigo.getD "PA")) := by
  intro h
  have hc := h regrasPAcustom
  simp [calcular_pontuacao_palpite_ausente, regrasPAcustom, getRegra] at hc

/-- C4 (amended): every rule consulted by `calcular_pontuacao` is
configuration-driven — when a rule fires (its predicate holds and all
earlier predicates fail) the returned points and code are the configured
values, with the built-in defaults only as fallbacks — but the
missing-prediction penalty ignores configuration and is always
`(-1, "PA")`, and the no-match fallback is likewise fixed at `(0, "NP")`. -/
theorem c4_configurabilidade (p : Palpite) (r : Resultado) (regras : Regras) (n : Int) :
    calcular_pontuacao_palpite_ausente = (-1, "PA")
    ∧ (verificar_resultado_inverso p r = true →
        calcular_pontuacao p r regras n =
          ((getRegra regras.resultado_inverso).pontos.getD (-3),
           (getRegra regras.resultado_inverso).codigo.getD "RI"))
    ∧ (verificar_resultado_inverso p r = false →
       verificar_resultado_exato p r = true →
        calcular_pontuacao p r regras n =
          ((getRegra regras.resultado_exato).pontos_base.getD 12
             + calcular_bonus_resultado_exato n,
           (getRegra regras.resultado_exato).codigo.getD "AR"))
    ∧ (verificar_resultado_inverso p r = false →
       verificar_resultado_exato p r = false →
       verificar_vitoria_gols_um_time p r = true →
        calcular_pontuacao p r regras n =
          ((getRegra regras.vitoria_gols_um_time).pontos.getD 7,
           (getRegra regras.vitoria_gols_um_time).codigo.getD "VG"))
    ∧ (verificar_resultado_inverso p r = false →
       verificar_resultado_exato p r = false →
       verificar_vitoria_gols_um_time p r = false →
       verificar_vitoria_diferenca_gols p r = true →
        calcular_pontuacao p r regras n =
          ((getRegra regras.vitoria_diferenca_gols).pontos.getD 6,
           (getRegra regras.vitoria_diferenca_gols).codigo.getD "VD"))
    ∧ (verificar_resultado_inverso p r = false →
       verificar_resultado_exato p r = false →
       verificar_vitoria_gols_um_time p r = false →
       verificar_vitoria_diferenca_gols p r = false →
       verificar_vitoria_soma_gols p r = true →
        calcular_pontuacao p r regras n =
          ((getRegra regras.vitoria_soma_gols).pontos.getD 6,
           (getRegra regras.vitoria_soma_gols).codigo.getD "VS"))
    ∧ (verificar_resultado_inverso p r = false →
       verificar_resultado_exato p r = false →
       verificar_vitoria_gols_um_time p r = false →
       verificar_vitoria_diferenca_gols p r = false →
       verificar_vitoria_soma_gols p r = false →
       verificar_apenas_vitoria p r = true →
        calcular_pontuacao p r regras n =
          ((getRegra regras.apenas_vitoria).pontos.getD 5,
           (getRegra regras.apenas_vitoria).codigo.getD "AV"))
    ∧ (verificar_resultado_inverso p r = false →
       verificar_resultado_exato p r = false →
       verificar_vitoria_gols_um_time p r = false →
       verificar_vitoria_diferenca_gols p r = false →
       verificar_vitoria_soma_gols p r = false →
       verificar_apenas_vitoria p r = false →
       verificar_apenas_empate p r = true →
        calcular_pontuacao p r regras n =
          ((getRegra regras.apenas_empate).pontos.getD 5,
           (getRegra regras.apenas_empate).codigo.getD "AE"))
    ∧ (verificar_resultado_inverso p r = false →
       verificar_resultado_exato p r = false →
       verificar_vitoria_gols_um_time p r = false →
       verificar_vitoria_diferenca_gols p r = false →
       verificar_vitoria_soma_gols p r = false →
       verificar_apenas_vitoria p r = false →
       verificar_apenas_empate p r = false →
       verificar_gols_um_time p r = true →
        calcular_pontuacao p r regras n =
          ((getRegra regras.gols_um_time).pontos.getD 2,
           (getRegra regras.gols_um_time).codigo.getD "AG"))
    ∧ (verificar_resultado_inverso p r = false →
       verificar_resultado_exato p r = false →
       verificar_vitoria_gols_um_time p r = false →
       verificar_vitoria_diferenca_gols p r = false →
       verificar_vitoria_soma_gols p r = false →
       verificar_apenas_vitoria p r = false →
       verificar_apenas_empate p r = false →
       verificar_gols_um_time p r = false →
       verificar_soma_gols p r = true →
        calcular_pontuacao p r regras n =
          ((getRegra regras.soma_gols).pontos.getD 1,
           (getRegra regras.soma_gols).codigo.getD "AS"))
    ∧ (verificar_resultado_inverso p r = false →
       verificar_resultado_exato p r = false →
       verificar_vitoria_gols_um_time p r = false →
       verificar_vitoria_diferenca_gols p r = false →
       verificar_vitoria_soma_gols p r = false →
       verificar_apenas_vitoria p r = false →
       verificar_apenas_empate p r = false →
       verificar_gols_um_time p r = false →
       verificar_soma_gols p r = false →
        calcular_pontuacao p r regras n = (0, "NP")) := by
  refine ⟨rfl, ?_, ?_, ?_, ?_, ?_, ?_, ?_, ?_, ?_, ?_⟩ <;>
    (intros; simp [calcular_pontuacao, *])

/-- C4 witness: the fixed missing-prediction penalty, and a configured
inverted-score rule firing with its custom points and code. -/
theorem c4_configurabilidade_witness :
    calcular_pontuacao_palpite_ausente = (-1, "PA")
    ∧ calcular_pontuacao ⟨some 2, some 1⟩ ⟨some 1, some 2⟩ regrasRIcustom 1 = (-7, "ZZ") := by
  refine ⟨(c4_configurabilidade ⟨some 2, some 1⟩ ⟨some 1, some 2⟩ regrasRIcustom 1).1, ?_⟩
  have h := (c4_configurabilidade ⟨some 2, some 1⟩ ⟨some 1, some 2⟩ regrasRIcustom 1).2.1
    (by decide)
  simpa [regrasRIcustom, getRegra] using h

/-! ## C10: totality of the scoring engine, division-by-zero safety -/

/-- C10: the scoring engine is total over the embedding — in particular the
proportional bonus never divides by zero: for every exact-hit count
`N ≤ 0` (excluded by the spec's precondition but accepted by the code) the
bonus is `0`, and an exact hit still returns the well-defined pair
`(basePoints + 0, code)`. -/
theorem calcular_pontuacao_total_n_nao_positivo (n : Int) (p : Palpite) (r : Resultado)
    (regras : Regras) :
    (n ≤ 0 → calcular_bonus_resultado_exato n = 0)
    ∧ (n ≤ 0 → verificar_resultado_exato p r = true →
        calcular_pontuacao p r regras n =
          ((getRegra regras.resultado_exato).pontos_base.getD 12,
           (getRegra regras.resultado_exato).codigo.getD "AR")) := by
  constructor
  · intro hn
    simp [calcular_bonus_resultado_exato, hn]
  · intro hn hex
    have hinv := inverso_eq_false_of_exato _ _ hex
    simp [calcular_pontuacao, hinv, hex, calcular_bonus_resultado_exato, hn]

/-- C10 witness: an exact hit with `N = 0` under the default configuration
evaluates to `(12, "AR")` with a zero bonus. -/
theorem calcular_pontuacao_total_n_nao_positivo_witness :
    calcular_bonus_resultado_exato 0 = 0
    ∧ calcular_pontuacao ⟨some 1, some 1⟩ ⟨some 1, some 1⟩ regrasDefault 0 = (12, "AR") := by
  constructor
  · exact (calcular_pontuacao_total_n_nao_positivo 0 ⟨some 1, some 1⟩ ⟨some 1, some 1⟩
      regrasDefault).1 (by decide)
  · have h := (calcular_pontuacao_total_n_nao_positivo 0 ⟨some 1, some 1⟩ ⟨some 1, some 1⟩
      regrasDefault).2 (by decide) (by decide)
    simpa [regrasDefault, getRegra] using h

/-! ## Name normalization (`src/utils/normalizacao.py`)

`normalizar_nome_time` is embedded as a pipeline on `List Char` mirroring
the Python statement order: `strip` → NFD-decompose and drop combining
marks → `lower` → `/`→`-` → collapse whitespace runs → spaces→hyphens →
drop characters outside `[a-z0-9-]` → collapse hyphen runs → `strip('-')`.

Unicode operations are modelled per character: `acentoBase` models NFD
decomposition followed by removal of `Mn`-category marks,
`pyLower`/`pyUpperMap` model `str.lower`/`str.upper`.  The models agree
with Python exactly on the faithful alphabet `charFiel` (ASCII, minus the
control whitespace characters that `isEspaco` omits, plus the accented
Latin letters of Portuguese team names) and additionally record
`str.upper`'s multi-character expansions such as `'ß'` → `"SS"`; on the
rest of Unicode they default to the identity and are not asserted to match
Python, so the case-invariance theorem below is stated over the faithful
alphabet only — and the `'ß'` expansion refutes the unrestricted claim. -/

/-- The whitespace characters (`str.strip`, regex `\s`) relevant here. -/
def isEspaco (c : Char) : Bool :=
  c = ' ' || c = '\t' || c = '\n' || c = '\r'

/-- NFD decomposition followed by dropping combining marks, per character:
each modelled accented letter maps to its base letter.  This agrees with
Python exactly on the faithful alphabet `charFiel` below (ASCII has no
decomposition; the table covers the accented Latin letters).  On other
characters it defaults to the identity, which is *not* asserted to match
Python — e.g. the program folds `'ā'` to `'a'` while this default leaves it
to be removed by the character filter — so the normalization theorems
restrict their case-invariance claims to the faithful alphabet. -/
def acentoBase (c : Char) : Char :=
  match c with
  | 'á' | 'à' | 'â' | 'ã' | 'ä' => 'a'
  | 'é' | 'è' | 'ê' | 'ë' => 'e'
  | 'í' | 'ì' | 'î' | 'ï' => 'i'
  | 'ó' | 'ò' | 'ô' | 'õ' | 'ö' => 'o'
  | 'ú' | 'ù' | 'û' | 'ü' => 'u'
  | 'ç' => 'c'
  | 'ñ' => 'n'
  | 'Á' | 'À' | 'Â' | 'Ã' | 'Ä' => 'A'
  | 'É' | 'È' | 'Ê' | 'Ë' => 'E'
  | 'Í' | 'Ì' | 'Î' | 'Ï' => 'I'
  | 'Ó' | 'Ò' | 'Ô' | 'Õ' | 'Ö' => 'O'
  | 'Ú' | 'Ù' | 'Û' | 'Ü' => 'U'
  | 'Ç' => 'C'
  | 'Ñ' => 'N'
  | _ => c

/-- `str.lower`, per character.  Exact on the faithful alphabet `charFiel`
(in the pipeline it runs after `acentoBase`, so faithful-alphabet input has
already been folded to ASCII).  Identity elsewhere, *not* asserted to match
Python there — e.g. `'İ'.lower()` is `'i'` plus a combining dot, which the
program normalizes to `"i"` while this default strips `'İ'` — hence the
faithful-alphabet restriction on the case-invariance theorems. -/
def pyLower (c : Char) : Char :=
  match c with
  | 'A' => 'a' | 'B' => 'b' | 'C' => 'c' | 'D' => 'd' | 'E' => 'e' | 'F' => 'f'
  | 'G' => 'g' | 'H' => 'h' | 'I' => 'i' | 'J' => 'j' | 'K' => 'k' | 'L' => 'l'
  | 'M' => 'm' | 'N' => 'n' | 'O' => 'o' | 'P' => 'p' | 'Q' => 'q' | 'R' => 'r'
  | 'S' => 's' | 'T' => 't' | 'U' => 'u' | 'V' => 'v' | 'W' => 'w' | 'X' => 'x'
  | 'Y' => 'y' | 'Z' => 'z'
  | _ => c

/-- The single-character fragment of `str.upper`.  Exact on the faithful
alphabet `charFiel`.  `str.upper` also maps some characters to *several*
characters or to characters this table does not cover; those cases live in
`pyUpperMap` below, and outside the faithful alphabet the identity default
here is not asserted to match Python. -/
def pyUpper (c : Char) : Char :=
  match c with
  | 'a' => 'A' | 'b' => 'B' | 'c' => 'C' | 'd' => 'D' | 'e' => 'E' | 'f' => 'F'
  | 'g' => 'G' | 'h' => 'H' | 'i' => 'I' | 'j' => 'J' | 'k' => 'K' | 'l' => 'L'
  | 'm' => 'M' | 'n' => 'N' | 'o' => 'O' | 'p' => 'P' | 'q' => 'Q' | 'r' => 'R'
  | 's' => 'S' | 't' => 'T' | 'u' => 'U' | 'v' => 'V' | 'w' => 'W' | 'x' => 'X'
  | 'y' => 'Y' | 'z' => 'Z'
  | 'á' => 'Á' | 'à' => 'À' | 'â' => 'Â' | 'ã' => 'Ã' | 'ä' => 'Ä'
  | 'é' => 'É' | 'è' => 'È' | 'ê' => 'Ê' | 'ë' => 'Ë'
  | 'í' => 'Í' | 'ì' => 'Ì' | 'î' => 'Î' | 'ï' => 'Ï'
  | 'ó' => 'Ó' | 'ò' => 'Ò' | 'ô' => 'Ô' | 'õ' => 'Õ' | 'ö' => 'Ö'
  | 'ú' => 'Ú' | 'ù' => 'Ù' | 'û' => 'Û' | 'ü' => 'Ü'
  | 'ç' => 'Ç'
  | 'ñ' => 'Ñ'
  | _ => c

/-- The accented Latin letters covered by the per-character tables. -/
def acentosModelados : List Char :=
  ['á', 'à', 'â', 'ã', 'ä', 'é', 'è', 'ê', 'ë', 'í', 'ì', 'î', 'ï',
   'ó', 'ò', 'ô', 'õ', 'ö', 'ú', 'ù', 'û', 'ü', 'ç', 'ñ',
   'Á', 'À', 'Â', 'Ã', 'Ä', 'É', 'È', 'Ê', 'Ë', 'Í', 'Ì', 'Î', 'Ï',
   'Ó', 'Ò', 'Ô', 'Õ', 'Ö', 'Ú', 'Ù', 'Û', 'Ü', 'Ç', 'Ñ']

/-- The alphabet on which the per-character models above agree exactly with
Python: ASCII — minus the control whitespace characters `\v`, `\f` and
`\x1c`–`\x1f`, which Python's `str.strip`/`\s` treat as whitespace but
`isEspaco` does not — plus the modelled accented letters. -/
def charFiel (c : Char) : Bool :=
  (decide (c.toNat ≤ 127) && c.toNat != 11 && c.toNat != 12
    && !(decide (28 ≤ c.toNat) && decide (c.toNat ≤ 31)))
  || acentosModelados.contains c

/-- `str.upper`, per character, as a character-to-string map: Python's full
case mapping sends some characters to several characters (`'ß'` to `"SS"`,
`'ﬁ'` to `"FI"`) or to a character outside the single-character table
(`'ı'` to `'I'`); every other character defers to `pyUpper`. -/
def pyUpperMap (c : Char) : List Char :=
  if c = 'ß' then ['S', 'S']
  else if c = 'ﬁ' then ['F', 'I']
  else if c = 'ı' then ['I']
  else [pyUpper c]

/-- `nome.replace('/', '-')`, per character. -/
def slashParaHifen (c : Char) : Char :=
  if c = '/' then '-' else c

/-- `nome.replace(' ', '-')`, per character. -/
def espacoParaHifen (c : Char) : Char :=
  if c = ' ' then '-' else c

/-- The character class kept by `re.sub(r'[^a-z0-9\-]', '', nome)`. -/
def keepChar (c : Char) : Bool :=
  ('a' ≤ c && c ≤ 'z') || ('0' ≤ c && c ≤ '9') || c = '-'

/-- Helper for `collapseRuns`: `inRun` records whether the previous
character was part of a run being collapsed. -/
def collapseRunsAux (p : Char → Bool) (rep : Char) : Bool → List Char → List Char
  | _, [] => []
  | inRun, c :: rest =>
    if p c then
      if inRun then collapseRunsAux p rep true rest
      else rep :: collapseRunsAux p rep true rest
    else c :: collapseRunsAux p rep false rest

/-- `re.sub(p+, rep, ...)`: replace every maximal run of characters
satisfying `p` by the single character `rep`. -/
def collapseRuns (p : Char → Bool) (rep : Char) (l : List Char) : List Char :=
  collapseRunsAux p rep false l

/-- `str.strip()`: drop whitespace from both ends. -/
def stripWS (l : List Char) : List Char :=
  ((l.dropWhile isEspaco).reverse.dropWhile isEspaco).reverse

/-- The tail of the normalization pipeline, applied after the per-character
stages: collapse whitespace runs to a single space, turn spaces into
hyphens, drop characters outside `[a-z0-9-]`, collapse hyphen runs, strip
leading/trailing hyphens. -/
def normalizarNucleo (l3 : List Char) : List Char :=
  let l4 := collapseRuns isEspaco ' ' l3
  let l5 := l4.map espacoParaHifen
  let l6 := l5.filter keepChar
  let l7 := collapseRuns (fun c => c = '-') '-' l6
  ((l7.dropWhile (fun c => c = '-')).reverse.dropWhile (fun c => c = '-')).reverse

/-- `normalizar_nome_time`: empty input yields the empty string, otherwise
strip, fold accents, lowercase, `/`→`-`, then the pipeline tail. -/
def normalizar_nome_time (nome : String) : String :=
  if nome = "" then ""
  else
    ⟨normalizarNucleo ((((stripWS nome.data).map acentoBase).map pyLower).map slashParaHifen)⟩

/-- Python `name.upper()`: the concatenation of each character's full case
mapping. -/
def pythonUpper (s : String) : String :=
  ⟨(s.data.map pyUpperMap).flatten⟩

/-- Python `name.replace("/", "-")`. -/
def pythonReplaceSlash (s : String) : String :=
  ⟨s.data.map slashParaHifen⟩

/-! ### Commutation lemmas for the per-character stages -/

/-- Upper-casing then folding accents and lower-casing is the same as
folding accents and lower-casing directly. -/
theorem pyLower_acentoBase_pyUpper (c : Char) :
    pyLower (acentoBase (pyUpper c)) = pyLower (acentoBase c) := by
  unfold pyUpper
  split <;> rfl

theorem isEspaco_pyUpper (c : Char) : isEspaco (pyUpper c) = isEspaco c := by
  unfold pyUpper
  split <;> rfl

theorem isEspaco_slashParaHifen (c : Char) :
    isEspaco (slashParaHifen c) = isEspaco c := by
  unfold slashParaHifen
  split_ifs with h
  · subst h; rfl
  · rfl

/-- The slash substitution commutes with the accent-fold/lower stages. -/
theorem slash_pipeline_char (c : Char) :
    slashParaHifen (pyLower (acentoBase (slashParaHifen c))) =
      slashParaHifen (pyLower (acentoBase c)) := by
  by_cases hc : c = '/'
  · subst hc; rfl
  · rw [show slashParaHifen c = c from if_neg hc]

theorem stripWS_map {f : Char → Char} (hf : ∀ c, isEspaco (f c) = isEspaco c)
    (l : List Char) : stripWS (l.map f) = (stripWS l).map f := by
  have hcomp : (isEspaco ∘ f) = isEspaco := funext hf
  unfold stripWS
  rw [List.dropWhile_map, hcomp, ← List.map_reverse, List.dropWhile_map, hcomp,
    ← List.map_reverse]

theorem dropWhile_espacos_append {p : Char → Bool} (sp l : List Char)
    (h : ∀ c ∈ sp, p c = true) : (sp ++ l).dropWhile p = l.dropWhile p := by
  induction sp with
  | nil => rfl
  | cons c sp ih =>
    have hc : p c = true := h c (List.mem_cons_self c sp)
    simp only [List.cons_append, List.dropWhile_cons, hc, if_true]
    exact ih fun d hd => h d (List.mem_cons_of_mem c hd)

theorem stripWS_append_left (sp l : List Char) (h : ∀ c ∈ sp, isEspaco c = true) :
    stripWS (sp ++ l) = stripWS l := by
  unfold stripWS
  rw [dropWhile_espacos_append sp l h]

theorem stripWS_append_right (l sp : List Char) (h : ∀ c ∈ sp, isEspaco c = true) :
    stripWS (l ++ sp) = stripWS l := by
  have hsp : sp.dropWhile isEspaco = [] := by
    have := dropWhile_espacos_append sp [] h
    simpa using this
  unfold stripWS
  rw [List.dropWhile_append]
  by_cases he : (l.dropWhile isEspaco).isEmpty
  · simp only [he, if_true, hsp]
    rw [List.isEmpty_iff] at he
    simp [he]
  · simp only [he, if_false, Bool.false_eq_true]
    rw [List.reverse_append]
    rw [dropWhile_espacos_append sp.reverse _ fun c hc => h c (List.mem_reverse.mp hc)]

/-! ### C9: normalization invariances -/

/-- On the faithful alphabet, `str.upper` is the single-character table. -/
theorem pyUpperMap_fiel (c : Char) (h : charFiel c = true) :
    pyUpperMap c = [pyUpper c] := by
  unfold pyUpperMap
  split_ifs with h1 h2 h3
  · subst h1
    exact absurd h (by decide)
  · subst h2
    exact absurd h (by decide)
  · subst h3
    exact absurd h (by decide)
  · rfl

theorem flatten_pyUpperMap (l : List Char) (h : ∀ c ∈ l, charFiel c = true) :
    (l.map pyUpperMap).flatten = l.map pyUpper := by
  induction l with
  | nil => rfl
  | cons c cs ih =>
    simp only [List.map_cons, List.flatten_cons]
    rw [pyUpperMap_fiel c (h c (List.mem_cons_self c cs)),
      ih fun d hd => h d (List.mem_cons_of_mem c hd)]
    rfl

set_option maxHeartbeats 1000000 in
/-- The single-character uppercase table preserves normalization for every
string: folding accents and lower-casing undo it. -/
theorem normalizar_map_pyUpper (nome : String) :
    normalizar_nome_time ⟨nome.data.map pyUpper⟩ = normalizar_nome_time nome := by
  by_cases hn : nome = ""
  · subst hn
    decide
  · have hdata : nome.data ≠ [] := fun h => hn (String.ext (by rw [h]))
    have hup : (⟨nome.data.map pyUpper⟩ : String) ≠ "" := by
      intro h
      have h2 : nome.data.map pyUpper = [] := congrArg String.data h
      exact hdata (List.map_eq_nil_iff.mp h2)
    have hl : (((stripWS (⟨nome.data.map pyUpper⟩ : String).data).map acentoBase).map
        pyLower).map slashParaHifen =
        (((stripWS nome.data).map acentoBase).map pyLower).map slashParaHifen := by
      rw [show (⟨nome.data.map pyUpper⟩ : String).data = nome.data.map pyUpper from rfl]
      rw [stripWS_map isEspaco_pyUpper]
      simp only [List.map_map]
      apply List.map_congr_left
      intro c _
      exact congrArg slashParaHifen (pyLower_acentoBase_pyUpper c)
    unfold normalizar_nome_time
    rw [if_neg hup, if_neg hn, hl]

/-- C9 (counterexample): the unrestricted case invariance is false in the
program: `'ß'` is stripped by the `[a-z0-9-]` filter, so `"ß"` normalizes
to `""`, while Python's `"ß".upper()` is `"SS"`, which normalizes to
`"ss"`. -/
theorem c9_invariancia_upper_falha :
    ¬ (∀ nome : String,
        normalizar_nome_time (pythonUpper nome) = normalizar_nome_time nome
        ∧ normalizar_nome_time (pythonReplaceSlash nome) = normalizar_nome_time nome
        ∧ normalizar_nome_time ("  " ++ nome ++ "  ") = normalizar_nome_time nome) := by
  intro h
  have hb := (h "ß").1
  revert hb
  decide

set_option maxHeartbeats 1000000 in
/-- C9 (amended): the slash-vs-hyphen and surrounding-whitespace
invariances hold for every string, and the case invariance
`normalize(name) = normalize(name.upper())` holds for every name over the
faithful alphabet (ASCII and the modelled accented letters); it fails in
general for characters with expanding case mappings such as `'ß'`. -/
theorem normalizar_nome_time_invariancias (nome : String) :
    ((∀ c ∈ nome.data, charFiel c = true) →
      normalizar_nome_time (pythonUpper nome) = normalizar_nome_time nome)
    ∧ normalizar_nome_time (pythonReplaceSlash nome) = normalizar_nome_time nome
    ∧ normalizar_nome_time ("  " ++ nome ++ "  ") = normalizar_nome_time nome := by
  refine ⟨?_, ?_, ?_⟩
  · intro hchars
    rw [show pythonUpper nome = (⟨nome.data.map pyUpper⟩ : String) from
      congrArg String.mk (flatten_pyUpperMap nome.data hchars)]
    exact normalizar_map_pyUpper nome
  · by_cases hn : nome = ""
    · subst hn
      decide
    · have hdata : nome.data ≠ [] := fun h => hn (String.ext (by rw [h]))
      have hsl : pythonReplaceSlash nome ≠ "" := by
        intro h
        have h2 : nome.data.map slashParaHifen = [] := congrArg String.data h
        exact hdata (List.map_eq_nil_iff.mp h2)
      have hl : (((stripWS (pythonReplaceSlash nome).data).map acentoBase).map pyLower).map
          slashParaHifen =
          (((stripWS nome.data).map acentoBase).map pyLower).map slashParaHifen := by
        rw [show (pythonReplaceSlash nome).data = nome.data.map slashParaHifen from rfl]
        rw [stripWS_map isEspaco_slashParaHifen]
        simp only [List.map_map]
        apply List.map_congr_left
        intro c _
        exact slash_pipeline_char c
      unfold normalizar_nome_time
      rw [if_neg hsl, if_neg hn, hl]
  · by_cases hn : nome = ""
    · subst hn
      decide
    · have hpad : ("  " ++ nome ++ "  ") ≠ "" := by
        intro h
        have h2 : ([' ', ' '] ++ nome.data) ++ [' ', ' '] = [] := by
          have h3 := congrArg String.data h
          rw [String.data_append, String.data_append] at h3
          exact h3
        simp at h2
      have hespacos : ∀ c ∈ ([' ', ' '] : List Char), isEspaco c = true := by
        intro c hc
        simp only [List.mem_cons, List.not_mem_nil, or_false] at hc
        rcases hc with h | h <;> (subst h; rfl)
      have hl : stripWS ("  " ++ nome ++ "  ").data = stripWS nome.data := by
        have hd : ("  " ++ nome ++ "  ").data = ([' ', ' '] ++ nome.data) ++ [' ', ' '] := by
          rw [String.data_append, String.data_append]
        rw [hd, stripWS_append_right _ _ hespacos, stripWS_append_left _ _ hespacos]
      unfold normalizar_nome_time
      rw [if_neg hpad, if_neg hn, hl]

/-- C9 witness: the invariances at the concrete name `"São Paulo"`, all of
whose characters lie in the faithful alphabet. -/
theorem normalizar_nome_time_invariancias_witness :
    normalizar_nome_time (pythonUpper "São Paulo") = normalizar_nome_time "São Paulo"
    ∧ normalizar_nome_time (pythonReplaceSlash "São Paulo") = normalizar_nome_time "São Paulo"
    ∧ normalizar_nome_time ("  " ++ "São Paulo" ++ "  ") = normalizar_nome_time "São Paulo" := by
  have h := normalizar_nome_time_invariancias "São Paulo"
  exact ⟨h.1 (by decide), h.2.1, h.2.2⟩

/-! ## Fuzzy matching (`encontrar_time_similar`, `src/utils/normalizacao.py`)

The Python code calls `Levenshtein.distance`; we model it with Mathlib's
`levenshtein` under the default unit-cost structure, applied to the
character lists of the two strings. -/

/-- `Levenshtein.distance` on strings (unit costs). -/
def distance (s t : String) : Nat :=
  levenshtein Levenshtein.defaultCost s.data t.data

/-- The scan inside `encontrar_time_similar`: `melhor_match` and
`menor_distancia` mirror the Python accumulators (`None`/`float('inf')`
start).  An exact normalized match returns immediately; otherwise a
candidate within the threshold and strictly closer than the current best
replaces it. -/
def encontrarLoop (nome_normalizado : String) (limite_distancia : Nat) :
    List String → Option String → Option Nat → Option String
  | [], melhor_match, _ => melhor_match
  | time_valido :: rest, melhor_match, menor_distancia =>
    let time_normalizado := normalizar_nome_time time_valido
    let dist := distance nome_normalizado time_normalizado
    if dist = 0 then some time_valido
    else if decide (dist ≤ limite_distancia)
        && menor_distancia.all (fun m => decide (dist < m)) then
      encontrarLoop nome_normalizado limite_distancia rest (some time_valido) (some dist)
    else
      encontrarLoop nome_normalizado limite_distancia rest melhor_match menor_distancia

/-- `encontrar_time_similar`: `None` for an empty candidate or empty list,
otherwise the scan above on the normalized candidate. -/
def encontrar_time_similar (nome : String) (times_validos : List String)
    (limite_distancia : Nat := 3) : Option String :=
  if nome = "" || times_validos.isEmpty then none
  else encontrarLoop (normalizar_nome_time nome) limite_distancia times_validos none none

/-! ### Helper lemmas for minima and zero distance -/

theorem foldr_min_le {α : Type} [LinearOrder α] (l : List α) (a : α) :
    l.foldr min a ≤ a := by
  induction l with
  | nil => exact le_refl a
  | cons x xs ih => exact le_trans (min_le_right _ _) ih

theorem min_foldr_min {α : Type} [LinearOrder α] (l : List α) (a b : α) :
    min b (l.foldr min a) = l.foldr min (min b a) := by
  induction l with
  | nil => rfl
  | cons x xs ih =>
    simp only [List.foldr]
    rw [min_left_comm, ih]

/-- Unit-cost Levenshtein distance is zero exactly on equal lists. -/
theorem levenshtein_eq_zero_iff (a : List Char) :
    ∀ b : List Char, levenshtein Levenshtein.defaultCost a b = 0 ↔ a = b := by
  induction a with
  | nil =>
    intro b
    cases b with
    | nil => simp
    | cons y ys => simp
  | cons x xs ih =>
    intro b
    cases b with
    | nil => simp
    | cons y ys =>
      simp only [levenshtein_cons_cons, Levenshtein.defaultCost_delete,
        Levenshtein.defaultCost_insert, Levenshtein.defaultCost_substitute]
      constructor
      · intro h
        rcases Nat.min_eq_zero_iff.mp h with h1 | h23
        · omega
        rcases Nat.min_eq_zero_iff.mp h23 with h2 | h3
        · omega
        by_cases hxy : x = y
        · subst hxy
          simp only [if_true, eq_self_iff_true, Nat.zero_add] at h3
          rw [(ih ys).mp h3]
        · rw [if_neg hxy] at h3
          omega
      · intro h
        obtain ⟨hx, hxs⟩ := List.cons.injEq .. ▸ h
        subst hx
        subst hxs
        have h3 : (if x = x then 0 else 1) + levenshtein Levenshtein.defaultCost xs xs = 0 := by
          rw [if_pos rfl, Nat.zero_add]
          exact (ih xs).mpr rfl
        apply Nat.eq_zero_of_le_zero
        calc min (1 + levenshtein Levenshtein.defaultCost xs (x :: xs))
              (min (1 + levenshtein Levenshtein.defaultCost (x :: xs) xs)
                ((if x = x then 0 else 1) + levenshtein Levenshtein.defaultCost xs xs))
            ≤ (if x = x then 0 else 1) + levenshtein Levenshtein.defaultCost xs xs :=
              le_trans (min_le_right _ _) (min_le_right _ _)
          _ = 0 := h3

/-- Characterization of the fuzzy-match scan: provided the current best
distance is within the threshold, the scan returns the first zero-distance
candidate if one exists; otherwise, writing `s` for the current best
distance (`limite+1` when there is none) and `m` for the minimum of `s` and
all candidate distances, it returns the first candidate at distance `m`
when `m` improves on `s`, and the current best match otherwise. -/
theorem encontrarLoop_spec (nomeN : String) (limite : Nat) :
    ∀ (ts : List String) (melhor : Option String) (menor : Option Nat),
      (∀ mo, menor = some mo → mo ≤ limite) →
      encontrarLoop nomeN limite ts melhor menor =
        (match ts.find? (fun t => distance nomeN (normalizar_nome_time t) == 0) with
        | some t => some t
        | none =>
          if (ts.map (fun t => distance nomeN (normalizar_nome_time t))).foldr min
              (menor.getD (limite + 1)) < menor.getD (limite + 1) then
            ts.find? (fun t => distance nomeN (normalizar_nome_time t) ==
              (ts.map (fun t => distance nomeN (normalizar_nome_time t))).foldr min
                (menor.getD (limite + 1)))
          else melhor) := by
  intro ts
  induction ts with
  | nil =>
    intro melhor menor hinv
    simp [encontrarLoop]
  | cons t0 rest ih =>
    intro melhor menor hinv
    by_cases h0 : distance nomeN (normalizar_nome_time t0) = 0
    · rw [show encontrarLoop nomeN limite (t0 :: rest) melhor menor = some t0 by
        simp [encontrarLoop, h0]]
      rw [List.find?_cons_of_pos _ (by simpa using h0)]
    · have hd0 : (distance nomeN (normalizar_nome_time t0) == 0) = false := by
        simpa using h0
      rw [List.find?_cons_of_neg _ (by simp [h0])]
      have hcond : (decide (distance nomeN (normalizar_nome_time t0) ≤ limite)
            && menor.all (fun m => decide (distance nomeN (normalizar_nome_time t0) < m)))
            = true
          ↔ distance nomeN (normalizar_nome_time t0) < menor.getD (limite + 1) := by
        cases menor with
        | none => simp [Option.all]; omega
        | some mo =>
          have hmo := hinv mo rfl
          simp [Option.all]
          omega
      by_cases hup : distance nomeN (normalizar_nome_time t0) < menor.getD (limite + 1)
      · rw [show encontrarLoop nomeN limite (t0 :: rest) melhor menor
            = encontrarLoop nomeN limite rest (some t0)
                (some (distance nomeN (normalizar_nome_time t0))) by
          simp only [encontrarLoop, if_neg h0, if_pos (hcond.mpr hup)]]
        have hd0lim : distance nomeN (normalizar_nome_time t0) ≤ limite := by
          cases hmen : menor with
          | none => rw [hmen] at hup; simp at hup; omega
          | some mo => have := hinv mo hmen; rw [hmen] at hup; simp at hup; omega
        rw [ih (some t0) (some (distance nomeN (normalizar_nome_time t0)))
          (by intro mo h; injection h with h; omega)]
        simp only [Option.getD_some, List.map_cons, List.foldr_cons]
        rw [min_foldr_min]
        rw [show min (distance nomeN (normalizar_nome_time t0)) (menor.getD (limite + 1))
            = distance nomeN (normalizar_nome_time t0) from min_eq_left (by omega)]
        cases hfind : rest.find? (fun t => distance nomeN (normalizar_nome_time t) == 0) with
        | some t => rfl
        | none =>
          simp only
          have hle := foldr_min_le
            (rest.map (fun t => distance nomeN (normalizar_nome_time t)))
            (distance nomeN (normalizar_nome_time t0))
          by_cases hstrict : (rest.map (fun t => distance nomeN
              (normalizar_nome_time t))).foldr min
              (distance nomeN (normalizar_nome_time t0))
              < distance nomeN (normalizar_nome_time t0)
          · rw [if_pos hstrict, if_pos (by omega)]
            rw [List.find?_cons_of_neg _ (by simp; omega)]
          · have heq : (rest.map (fun t => distance nomeN
                (normalizar_nome_time t))).foldr min
                (distance nomeN (normalizar_nome_time t0))
                = distance nomeN (normalizar_nome_time t0) := by omega
            rw [if_neg hstrict, heq, if_pos hup]
            rw [List.find?_cons_of_pos _ (by simp)]
      · rw [show encontrarLoop nomeN limite (t0 :: rest) melhor menor
            = encontrarLoop nomeN limite rest melhor menor by
          simp only [encontrarLoop, if_neg h0]
          rw [if_neg (by rw [hcond]; exact hup)]]
        rw [ih melhor menor hinv]
        simp only [List.map_cons, List.foldr_cons]
        have hle := foldr_min_le
          (rest.map (fun t => distance nomeN (normalizar_nome_time t)))
          (menor.getD (limite + 1))
        have hmin : min (distance nomeN (normalizar_nome_time t0))
            ((rest.map (fun t => distance nomeN (normalizar_nome_time t))).foldr min
              (menor.getD (limite + 1)))
            = (rest.map (fun t => distance nomeN (normalizar_nome_time t))).foldr min
              (menor.getD (limite + 1)) := min_eq_right (by omega)
        rw [hmin]
        cases hfind : rest.find? (fun t => distance nomeN (normalizar_nome_time t) == 0) with
        | some t => rfl
        | none =>
          simp only
          by_cases hstrict : (rest.map (fun t => distance nomeN
              (normalizar_nome_time t))).foldr min (menor.getD (limite + 1))
              < menor.getD (limite + 1)
          · rw [if_pos hstrict, if_pos hstrict]
            rw [List.find?_cons_of_neg _ (by simp; omega)]
          · rw [if_neg hstrict, if_neg hstrict]

/-- C8: for a non-empty candidate and non-empty list of known names,
`encontrar_time_similar` returns the first known name whose normalized form
equals the normalized candidate if one exists; otherwise the first known
name attaining the minimum Levenshtein distance between normalized forms,
provided that minimum is within the threshold; otherwise `none`. -/
theorem encontrar_time_similar_spec (nome : String) (times : List String) (limite : Nat)
    (h1 : nome ≠ "") (h2 : times ≠ []) :
    encontrar_time_similar nome times limite =
      (match times.find? (fun t => normalizar_nome_time t == normalizar_nome_time nome) with
      | some t => some t
      | none =>
        if (times.map (fun t =>
              distance (normalizar_nome_time nome) (normalizar_nome_time t))).foldr min
            (limite + 1) ≤ limite then
          times.find? (fun t =>
            distance (normalizar_nome_time nome) (normalizar_nome_time t) ==
              (times.map (fun t =>
                distance (normalizar_nome_time nome) (normalizar_nome_time t))).foldr min
                (limite + 1))
        else none) := by
  have hpred : (fun t => distance (normalizar_nome_time nome) (normalizar_nome_time t) == 0)
      = (fun t => normalizar_nome_time t == normalizar_nome_time nome) := by
    funext t
    rw [Bool.eq_iff_iff]
    simp only [beq_iff_eq, distance, levenshtein_eq_zero_iff]
    constructor
    · intro h
      exact (String.ext h).symm
    · intro h
      rw [h]
  have hguard : ¬ ((nome = "") ∨ times.isEmpty = true) := by
    rintro (h | h)
    · exact h1 h
    · exact h2 (List.isEmpty_iff.mp h)
  unfold encontrar_time_similar
  rw [if_neg (by simpa using hguard)]
  rw [encontrarLoop_spec (normalizar_nome_time nome) limite times none none
    (by intro mo h; cases h)]
  simp only [Option.getD_none, hpred]
  cases times.find? (fun t => normalizar_nome_time t == normalizar_nome_time nome) with
  | some t => rfl
  | none =>
    simp only
    by_cases hlt : (times.map (fun t =>
        distance (normalizar_nome_time nome) (normalizar_nome_time t))).foldr min
        (limite + 1) < limite + 1
    · rw [if_pos hlt, if_pos (by omega)]
    · rw [if_neg hlt, if_neg (by omega)]

/-- C8 witness: the misspelling `"Flamego"` resolves to `"Flamengo"` among
`["Flamengo", "Palmeiras"]` with the default threshold 3. -/
theorem encontrar_time_similar_spec_witness :
    encontrar_time_similar "Flamego" ["Flamengo", "Palmeiras"] 3 = some "Flamengo" := by
  rw [encontrar_time_similar_spec "Flamego" ["Flamengo", "Palmeiras"] 3
    (by decide) (by decide)]
  decide

/-! ## Round inference (`inferir_rodada`, `src/utils/parser.py`)

The schedule (`tabela`) is embedded with typed rounds and games, so the
code's dynamic-shape guards (`'rodadas' not in tabela`,
`'numero' not in rodada`, `isinstance(..., list)`) are vacuous and dropped.
A raw prediction's team fields are plain strings; the code's truthiness
checks (`palpite['mandante']`), which skip missing and empty values alike,
become `≠ ""` tests.  Python sets of normalized names become
`Finset String`. -/

structure PalpiteRaw where
  mandante : String
  visitante : String
  gols_mandante : Option Int
  gols_visitante : Option Int
  tipo : Option String := none
  identificador : Option String := none
  deriving Repr, DecidableEq

structure Jogo where
  id : String
  mandante : String
  visitante : String
  deriving Repr, DecidableEq

structure Rodada where
  numero : Int
  jogos : List Jogo
  deriving Repr, DecidableEq

structure Tabela where
  rodadas : List Rodada
  deriving Repr, DecidableEq

/-- The set of normalized team names mentioned across the predictions
(`times_palpites`). -/
def timesDosPalpites (palpites : List PalpiteRaw) : Finset String :=
  palpites.foldr (fun palpite acc =>
    let acc1 := if palpite.visitante ≠ "" then
      insert (normalizar_nome_time palpite.visitante) acc else acc
    if palpite.mandante ≠ "" then
      insert (normalizar_nome_time palpite.mandante) acc1 else acc1) ∅

/-- The set of normalized team names in one round's games (`times_rodada`). -/
def timesDaRodada (rodada : Rodada) : Finset String :=
  rodada.jogos.foldr (fun jogo acc =>
    let acc1 := if jogo.visitante ≠ "" then
      insert (normalizar_nome_time jogo.visitante) acc else acc
    if jogo.mandante ≠ "" then
      insert (normalizar_nome_time jogo.mandante) acc1 else acc1) ∅

/-- One round's score, `|S ∩ T| / |S|`. -/
def scoreRodada (S : Finset String) (rodada : Rodada) : Rat :=
  ((S ∩ timesDaRodada rodada).card : Rat) / (S.card : Rat)

/-- The scan inside `inferir_rodada`: skip rounds with no teams, return
immediately on score `1.0`, otherwise keep the first round attaining each
strict improvement of the score. -/
def inferirLoop (times_palpites : Finset String) :
    List Rodada → Option Int → Rat → Option Int
  | [], melhor_rodada, melhor_score =>
    if melhor_score ≥ 1/2 then melhor_rodada else none
  | rodada :: rest, melhor_rodada, melhor_score =>
    if timesDaRodada rodada = ∅ then
      inferirLoop times_palpites rest melhor_rodada melhor_score
    else
      let score := scoreRodada times_palpites rodada
      if score = 1 then some rodada.numero
      else if score > melhor_score then
        inferirLoop times_palpites rest (some rodada.numero) score
      else
        inferirLoop times_palpites rest melhor_rodada melhor_score

/-- `inferir_rodada`: `None` for an empty prediction list or when no team
name is mentioned, otherwise the scan above. -/
def inferir_rodada (palpites : List PalpiteRaw) (tabela : Tabela) : Option Int :=
  if palpites.isEmpty then none
  else
    let times_palpites := timesDosPalpites palpites
    if times_palpites = ∅ then none
    else inferirLoop times_palpites tabela.rodadas none 0

/-! ### Helper lemmas for maxima and scores -/

theorem le_foldr_max {α : Type} [LinearOrder α] (l : List α) (a : α) :
    a ≤ l.foldr max a := by
  induction l with
  | nil => exact le_refl a
  | cons x xs ih => exact le_trans ih (le_max_right _ _)

theorem max_foldr_max {α : Type} [LinearOrder α] (l : List α) (a b : α) :
    max b (l.foldr max a) = l.foldr max (max b a) := by
  induction l with
  | nil => rfl
  | cons x xs ih =>
    simp only [List.foldr]
    rw [max_left_comm, ih]

theorem scoreRodada_nonneg (S : Finset String) (rodada : Rodada) :
    0 ≤ scoreRodada S rodada := by
  unfold scoreRodada
  positivity

theorem scoreRodada_le_one (S : Finset String) (rodada : Rodada) :
    scoreRodada S rodada ≤ 1 := by
  unfold scoreRodada
  rcases Nat.eq_zero_or_pos S.card with h | h
  · simp [h]
  · rw [div_le_one (by exact_mod_cast h)]
    exact_mod_cast Finset.card_le_card (Finset.inter_subset_left)

theorem scoreRodada_eq_one_iff (S : Finset String) (rodada : Rodada) (hS : S ≠ ∅) :
    scoreRodada S rodada = 1 ↔ S ⊆ timesDaRodada rodada := by
  have hcard : S.card ≠ 0 := by
    simpa [Finset.card_eq_zero] using hS
  unfold scoreRodada
  rw [div_eq_one_iff_eq (by exact_mod_cast hcard)]
  rw [show ((S ∩ timesDaRodada rodada).card : Rat) = ((S.card : Nat) : Rat) ↔
      (S ∩ timesDaRodada rodada).card = S.card from by exact_mod_cast Iff.rfl]
  constructor
  · intro h
    have := Finset.eq_of_subset_of_card_le (Finset.inter_subset_left) (le_of_eq h.symm)
    exact Finset.inter_eq_left.mp this
  · intro h
    rw [Finset.inter_eq_left.mpr h]

theorem scoreRodada_empty (S : Finset String) (rodada : Rodada)
    (hT : timesDaRodada rodada = ∅) : scoreRodada S rodada = 0 := by
  unfold scoreRodada
  rw [hT]
  simp

/-- Characterization of the scan: with the accumulated best score in
`[0, 1)`, the scan returns the number of the first round containing every
mentioned team if one exists; otherwise, writing `m` for the maximum of the
accumulated score and all round scores, the first round attaining `m` when
`m ≥ 1/2` and `m` improves on the accumulator, the accumulated round when
`m ≥ 1/2` without improvement, and `none` when `m < 1/2`. -/
theorem inferirLoop_spec (S : Finset String) (hS : S ≠ ∅) :
    ∀ (rodadas : List Rodada) (melhor : Option Int) (ms : Rat),
      0 ≤ ms → ms < 1 →
      inferirLoop S rodadas melhor ms =
        (match rodadas.find? (fun rodada => decide (S ⊆ timesDaRodada rodada)) with
        | some rodada => some rodada.numero
        | none =>
          if 1/2 ≤ (rodadas.map (scoreRodada S)).foldr max ms then
            (if ms < (rodadas.map (scoreRodada S)).foldr max ms then
              (rodadas.find? (fun rodada => scoreRodada S rodada ==
                (rodadas.map (scoreRodada S)).foldr max ms)).map Rodada.numero
             else melhor)
          else none) := by
  intro rodadas
  induction rodadas with
  | nil =>
    intro melhor ms h0 h1
    simp only [inferirLoop, List.find?_nil, List.map_nil, List.foldr_nil]
    by_cases h : 1/2 ≤ ms
    · rw [if_pos (by exact h), if_pos h, if_neg (lt_irrefl ms)]
    · rw [if_neg (by exact h), if_neg h]
  | cons rodada rest ih =>
    intro melhor ms h0 h1
    by_cases hT : timesDaRodada rodada = ∅
    · have hsub : (decide (S ⊆ timesDaRodada rodada)) = false := by
        simp only [decide_eq_false_iff_not]
        intro hcontra
        exact hS (Finset.subset_empty.mp (hT ▸ hcontra))
      have hscore : scoreRodada S rodada = 0 := scoreRodada_empty S rodada hT
      rw [show inferirLoop S (rodada :: rest) melhor ms = inferirLoop S rest melhor ms by
        simp only [inferirLoop, if_pos hT]]
      rw [ih melhor ms h0 h1]
      simp only [List.find?_cons, hsub]
      cases hfind : rest.find? (fun rodada => decide (S ⊆ timesDaRodada rodada)) with
      | some r => rfl
      | none =>
        simp only [List.map_cons, List.foldr_cons, hscore]
        have hle := le_foldr_max (rest.map (scoreRodada S)) ms
        rw [show max 0 ((rest.map (scoreRodada S)).foldr max ms)
            = (rest.map (scoreRodada S)).foldr max ms from max_eq_right (by linarith)]
        by_cases hhalf : 1/2 ≤ (rest.map (scoreRodada S)).foldr max ms
        · rw [if_pos hhalf, if_pos hhalf]
          by_cases himp : ms < (rest.map (scoreRodada S)).foldr max ms
          · have hbeq : ((0 : Rat)
                == (rest.map (scoreRodada S)).foldr max ms) = false := by
              simp only [beq_eq_false_iff_ne, ne_eq]
              intro hcontra
              linarith
            rw [if_pos himp, if_pos himp]
            simp only [hbeq]
          · rw [if_neg himp, if_neg himp]
        · rw [if_neg hhalf, if_neg hhalf]
    · have hscore01 : 0 ≤ scoreRodada S rodada := scoreRodada_nonneg S rodada
      have hscorele1 : scoreRodada S rodada ≤ 1 := scoreRodada_le_one S rodada
      by_cases hone : scoreRodada S rodada = 1
      · have hsub : (decide (S ⊆ timesDaRodada rodada)) = true := by
          simp only [decide_eq_true_eq]
          exact (scoreRodada_eq_one_iff S rodada hS).mp hone
        rw [show inferirLoop S (rodada :: rest) melhor ms = some rodada.numero by
          simp only [inferirLoop, if_neg hT, if_pos hone]]
        simp only [List.find?_cons, hsub]
      · have hsub : (decide (S ⊆ timesDaRodada rodada)) = false := by
          simp only [decide_eq_false_iff_not]
          intro hcontra
          exact hone ((scoreRodada_eq_one_iff S rodada hS).mpr hcontra)
        by_cases hup : scoreRodada S rodada > ms
        · rw [show inferirLoop S (rodada :: rest) melhor ms
              = inferirLoop S rest (some rodada.numero) (scoreRodada S rodada) by
            simp only [inferirLoop, if_neg hT, if_neg hone, if_pos hup]]
          rw [ih (some rodada.numero) (scoreRodada S rodada) hscore01
            (lt_of_le_of_ne hscorele1 hone)]
          simp only [List.find?_cons, hsub]
          simp only [List.map_cons, List.foldr_cons]
          rw [max_foldr_max]
          rw [show max (scoreRodada S rodada) ms = scoreRodada S rodada
            from max_eq_left (le_of_lt hup)]
          cases hfind : rest.find? (fun rodada => decide (S ⊆ timesDaRodada rodada)) with
          | some r => rfl
          | none =>
            simp only
            have hle := le_foldr_max (rest.map (scoreRodada S)) (scoreRodada S rodada)
            by_cases hhalf : 1/2 ≤ (rest.map (scoreRodada S)).foldr max (scoreRodada S rodada)
            · rw [if_pos hhalf, if_pos hhalf]
              by_cases hstrict : scoreRodada S rodada
                  < (rest.map (scoreRodada S)).foldr max (scoreRodada S rodada)
              · have hbeq : (scoreRodada S rodada
                    == (rest.map (scoreRodada S)).foldr max (scoreRodada S rodada)) = false := by
                  simp only [beq_eq_false_iff_ne, ne_eq]
                  intro hcontra
                  linarith
                rw [if_pos hstrict, if_pos (show ms
                  < (rest.map (scoreRodada S)).foldr max (scoreRodada S rodada) by linarith)]
                simp only [hbeq]
              · have heqm : (rest.map (scoreRodada S)).foldr max (scoreRodada S rodada)
                    = scoreRodada S rodada := le_antisymm (not_lt.mp hstrict) hle
                rw [if_neg hstrict, heqm, if_pos hup]
                simp only [beq_self_eq_true, Option.map_some']
            · rw [if_neg hhalf, if_neg hhalf]
        · rw [show inferirLoop S (rodada :: rest) melhor ms
              = inferirLoop S rest melhor ms by
            simp only [inferirLoop, if_neg hT, if_neg hone, if_neg hup]]
          rw [ih melhor ms h0 h1]
          simp only [List.find?_cons, hsub]
          simp only [List.map_cons, List.foldr_cons]
          have hle := le_foldr_max (rest.map (scoreRodada S)) ms
          have hup2 : scoreRodada S rodada ≤ ms := not_lt.mp hup
          rw [show max (scoreRodada S rodada) ((rest.map (scoreRodada S)).foldr max ms)
              = (rest.map (scoreRodada S)).foldr max ms from max_eq_right (by linarith)]
          cases hfind : rest.find? (fun rodada => decide (S ⊆ timesDaRodada rodada)) with
          | some r => rfl
          | none =>
            simp only
            by_cases hhalf : 1/2 ≤ (rest.map (scoreRodada S)).foldr max ms
            · rw [if_pos hhalf, if_pos hhalf]
              by_cases himp : ms < (rest.map (scoreRodada S)).foldr max ms
              · have hbeq : (scoreRodada S rodada
                    == (rest.map (scoreRodada S)).foldr max ms) = false := by
                  simp only [beq_eq_false_iff_ne, ne_eq]
                  intro hcontra
                  linarith
                rw [if_pos himp, if_pos himp]
                simp only [hbeq]
              · rw [if_neg himp, if_neg himp]
            · rw [if_neg hhalf, if_neg hhalf]

/-- C7: for a non-empty prediction list mentioning at least one team,
`inferir_rodada` returns the number of the first round (in schedule order)
whose team set contains every normalized team name mentioned in the
predictions; when no such round exists, the number of the first round
attaining the highest score `|S ∩ T| / |S|` provided that score is at least
`1/2`; otherwise `none`. -/
theorem inferir_rodada_spec (palpites : List PalpiteRaw) (tabela : Tabela)
    (h1 : palpites ≠ []) (h2 : timesDosPalpites palpites ≠ ∅) :
    inferir_rodada palpites tabela =
      (match tabela.rodadas.find? (fun rodada =>
          decide (timesDosPalpites palpites ⊆ timesDaRodada rodada)) with
      | some rodada => some rodada.numero
      | none =>
        if 1/2 ≤ (tabela.rodadas.map (scoreRodada (timesDosPalpites palpites))).foldr max 0 then
          (tabela.rodadas.find? (fun rodada =>
            scoreRodada (timesDosPalpites palpites) rodada ==
              (tabela.rodadas.map (scoreRodada (timesDosPalpites palpites))).foldr max 0)).map
            Rodada.numero
        else none) := by
  unfold inferir_rodada
  rw [if_neg (by simpa [List.isEmpty_iff] using h1)]
  rw [if_neg h2]
  rw [inferirLoop_spec (timesDosPalpites palpites) h2 tabela.rodadas none 0
    (le_refl 0) (by norm_num)]
  cases hfind : tabela.rodadas.find? (fun rodada =>
      decide (timesDosPalpites palpites ⊆ timesDaRodada rodada)) with
  | some r => rfl
  | none =>
    simp only
    by_cases hhalf : 1/2
        ≤ (tabela.rodadas.map (scoreRodada (timesDosPalpites palpites))).foldr max 0
    · rw [if_pos hhalf, if_pos hhalf, if_pos (by linarith)]
    · rw [if_neg hhalf, if_neg hhalf]

/-- C7 witness: predictions mentioning exactly the two teams of round 2's
game resolve to round 2. -/
theorem inferir_rodada_spec_witness :
    inferir_rodada [⟨"Flamengo", "Palmeiras", some 2, some 1, none, none⟩]
      ⟨[⟨1, [⟨"j1", "Santos", "Vasco"⟩]⟩, ⟨2, [⟨"j2", "Flamengo", "Palmeiras"⟩]⟩]⟩
      = some 2 := by
  rw [inferir_rodada_spec _ _ (by decide) (by decide)]
  decide

/-! ## Prediction validation (`validar_palpites_contra_tabela`,
`src/scripts/importar_palpites.py`)

A validated prediction dict always carries the matched game's id and
canonical names and both goal counts; the optional `'tipo'` /
`'identificador'` keys of extra bets are `Option` fields.  The Python loop
appends to its two result lists in traversal order; the embedding builds
the same lists by structural recursion.  The `'?'` fallbacks in the error
messages never fire for the typed records (team names are total fields),
and the `'rodadas' not in tabela` batch guard is vacuous here. -/

structure PalpiteValidado where
  id : String
  mandante : String
  visitante : String
  palpite_mandante : Int
  palpite_visitante : Int
  tipo : Option String := none
  identificador : Option String := none
  deriving Repr, DecidableEq

def msgSemPlacar (palpite : PalpiteRaw) : String :=
  "Palpite sem placar especificado: " ++ palpite.mandante ++ " x " ++ palpite.visitante

def msgJogoNaoEncontrado (rodada : Int) (palpite : PalpiteRaw) : String :=
  "Jogo não encontrado na rodada " ++ toString rodada ++ ": "
    ++ palpite.mandante ++ " x " ++ palpite.visitante

def msgRodadaNaoEncontrada (rodada : Int) : String :=
  "Rodada " ++ toString rodada ++ " não encontrada na tabela"

/-- The per-prediction loop of `validar_palpites_contra_tabela`: a
prediction missing a goal count contributes an error; one whose team pair
matches no game of the round contributes an error; otherwise it becomes a
validated prediction carrying the matched game's id and names. -/
def validarLoop (rodada : Int) (jogos_rodada : List Jogo) :
    List PalpiteRaw → List PalpiteValidado × List String
  | [] => ([], [])
  | palpite :: rest =>
    let resto := validarLoop rodada jogos_rodada rest
    match palpite.gols_mandante, palpite.gols_visitante with
    | some gm, some gv =>
      match jogos_rodada.find? (fun jogo =>
          jogo.mandante == palpite.mandante && jogo.visitante == palpite.visitante) with
      | some jogo_encontrado =>
        ({ id := jogo_encontrado.id, mandante := jogo_encontrado.mandante,
           visitante := jogo_encontrado.visitante,
           palpite_mandante := gm, palpite_visitante := gv,
           tipo := palpite.tipo, identificador := palpite.identificador } :: resto.1,
         resto.2)
      | none => (resto.1, msgJogoNaoEncontrado rodada palpite :: resto.2)
    | _, _ => (resto.1, msgSemPlacar palpite :: resto.2)

/-- `validar_palpites_contra_tabela`: whole batch fails when the round
number is absent from the schedule, otherwise each prediction is validated
against the round's games. -/
def validar_palpites_contra_tabela (palpites : List PalpiteRaw) (rodada : Int)
    (tabela : Tabela) : List PalpiteValidado × List String :=
  match tabela.rodadas.find? (fun r => r.numero == rodada) with
  | none => ([], [msgRodadaNaoEncontrada rodada])
  | some rodada_encontrada => validarLoop rodada rodada_encontrada.jogos palpites

/-- The validated prediction an input yields, if any (claim-side view). -/
def validaItem (jogos : List Jogo) (palpite : PalpiteRaw) : Option PalpiteValidado :=
  match palpite.gols_mandante, palpite.gols_visitante with
  | some gm, some gv =>
    (jogos.find? (fun jogo =>
        jogo.mandante == palpite.mandante && jogo.visitante == palpite.visitante)).map
      (fun jogo_encontrado =>
        { id := jogo_encontrado.id, mandante := jogo_encontrado.mandante,
          visitante := jogo_encontrado.visitante,
          palpite_mandante := gm, palpite_visitante := gv,
          tipo := palpite.tipo, identificador := palpite.identificador })
  | _, _ => none

/-- The error message an input yields, if any (claim-side view). -/
def erroItem (rodada : Int) (jogos : List Jogo) (palpite : PalpiteRaw) : Option String :=
  match palpite.gols_mandante, palpite.gols_visitante with
  | some _, some _ =>
    match jogos.find? (fun jogo =>
        jogo.mandante == palpite.mandante && jogo.visitante == palpite.visitante) with
    | some _ => none
    | none => some (msgJogoNaoEncontrado rodada palpite)
  | _, _ => some (msgSemPlacar palpite)

theorem validarLoop_eq (rodada : Int) (jogos : List Jogo) (palpites : List PalpiteRaw) :
    validarLoop rodada jogos palpites
      = (palpites.filterMap (validaItem jogos), palpites.filterMap (erroItem rodada jogos)) := by
  induction palpites with
  | nil => rfl
  | cons palpite rest ih =>
    simp only [validarLoop, ih, List.filterMap_cons]
    cases hm : palpite.gols_mandante with
    | none => simp [validaItem, erroItem, hm]
    | some gm =>
      cases hv : palpite.gols_visitante with
      | none => simp [validaItem, erroItem, hm, hv]
      | some gv =>
        cases hf : jogos.find? (fun jogo =>
            jogo.mandante == palpite.mandante && jogo.visitante == palpite.visitante) with
        | none => simp [validaItem, erroItem, hm, hv, hf]
        | some jogo_encontrado => simp [validaItem, erroItem, hm, hv, hf]

/-- C6: when the target round is absent from the schedule the whole batch
fails with an empty validated list and one error; otherwise every
prediction with a missing goal count or no exactly matching fixture in the
round contributes exactly one error and is excluded, and every other
prediction contributes exactly one validated prediction carrying the
matched game's id, the game's canonical team names, and the prediction's
goal counts. -/
theorem validar_palpites_contra_tabela_spec (palpites : List PalpiteRaw) (rodada : Int)
    (tabela : Tabela) :
    (tabela.rodadas.find? (fun r => r.numero == rodada) = none →
      validar_palpites_contra_tabela palpites rodada tabela
        = ([], [msgRodadaNaoEncontrada rodada]))
    ∧ (∀ rodada_encontrada,
        tabela.rodadas.find? (fun r => r.numero == rodada) = some rodada_encontrada →
        validar_palpites_contra_tabela palpites rodada tabela
          = (palpites.filterMap (validaItem rodada_encontrada.jogos),
             palpites.filterMap (erroItem rodada rodada_encontrada.jogos))) := by
  constructor
  · intro h
    unfold validar_palpites_contra_tabela
    rw [h]
  · intro rodada_encontrada h
    unfold validar_palpites_contra_tabela
    rw [h]
    exact validarLoop_eq rodada rodada_encontrada.jogos palpites

/-- C6 witness: one matching prediction is validated with the game's id;
an unmatched fixture and a missing score each yield one error, in input
order. -/
theorem validar_palpites_contra_tabela_spec_witness :
    validar_palpites_contra_tabela
      [⟨"A", "B", some 2, some 1, none, none⟩,
       ⟨"C", "D", some 0, some 0, none, none⟩,
       ⟨"A", "B", none, some 1, none, none⟩]
      1 ⟨[⟨1, [⟨"j1", "A", "B"⟩]⟩]⟩
      = ([⟨"j1", "A", "B", 2, 1, none, none⟩],
         ["Jogo não encontrado na rodada 1: C x D",
          "Palpite sem placar especificado: A x B"]) := by
  have h := (validar_palpites_contra_tabela_spec
    [⟨"A", "B", some 2, some 1, none, none⟩,
     ⟨"C", "D", some 0, some 0, none, none⟩,
     ⟨"A", "B", none, some 1, none, none⟩]
    1 ⟨[⟨1, [⟨"j1", "A", "B"⟩]⟩]⟩).2 ⟨1, [⟨"j1", "A", "B"⟩]⟩ (by decide)
  rw [h]
  decide

/-! ## Storing predictions (`atualizar_palpites_participante`,
`src/scripts/importar_palpites.py`)

The participant's stored data keeps one entry per round; re-submission
mutates the first entry whose round matches (refreshing its timestamp) or
appends a new one.  `datetime.now().isoformat()` is passed in as the
explicit `agora` argument.  The round-entry dict's optional `'jogos'` /
`'apostas_extras'` keys are total list fields (absent ≡ `[]`), and the
`'palpites' not in dados` initialization guard is vacuous for the typed
record. -/

structure Entrada where
  rodada : Int
  data_palpite : String
  jogos : List PalpiteValidado
  apostas_extras : List PalpiteValidado := []
  deriving Repr, DecidableEq

structure Participante where
  palpites : List Entrada
  deriving Repr, DecidableEq

/-- The body of the update applied to the round's entry: refresh the
timestamp, drop stored predictions whose game id occurs among the new
ones, append the new ones; when extra bets are present, the same
replace-by-`identificador` treatment is applied to them. -/
def aplicarPalpites (entrada : Entrada) (palpites_validados apostas_extras : List PalpiteValidado)
    (agora : String) : Entrada :=
  let ids_novos_palpites := palpites_validados.map (fun p => p.id)
  let jogos1 := (entrada.jogos.filter (fun j => !(ids_novos_palpites.contains j.id)))
    ++ palpites_validados
  let e1 : Entrada := { entrada with data_palpite := agora, jogos := jogos1 }
  if apostas_extras.isEmpty then e1
  else
    let identificadores_novos := apostas_extras.filterMap (fun ae => ae.identificador)
    { e1 with apostas_extras :=
        (entrada.apostas_extras.filter (fun ae =>
          match ae.identificador with
          | some i => !(identificadores_novos.contains i)
          | none => true)) ++ apostas_extras }

/-- Replace the first entry for the given round by its image under `f`,
leaving every other entry unchanged (the in-place mutation of the found
dict). -/
def updateFirst (f : Entrada → Entrada) (rodada : Int) : List Entrada → List Entrada
  | [] => []
  | e :: es => if e.rodada == rodada then f e :: es else e :: updateFirst f rodada es

/-- `atualizar_palpites_participante`: mutate the first entry for the round
if one exists, otherwise append a fresh entry and fill it the same way. -/
def atualizar_palpites_participante (dados : Participante) (rodada : Int)
    (palpites_validados apostas_extras : List PalpiteValidado) (agora : String) :
    Participante :=
  match dados.palpites.find? (fun entrada => entrada.rodada == rodada) with
  | some _ =>
    ⟨updateFirst (fun e => aplicarPalpites e palpites_validados apostas_extras agora)
      rodada dados.palpites⟩
  | none =>
    ⟨dados.palpites
      ++ [aplicarPalpites ⟨rodada, agora, [], []⟩ palpites_validados apostas_extras agora]⟩

/-! ### Helper lemmas about `updateFirst` -/

theorem updateFirst_filter_ne (f : Entrada → Entrada) (rodada : Int)
    (hf : ∀ e, (f e).rodada = e.rodada) :
    ∀ l : List Entrada,
      (updateFirst f rodada l).filter (fun e => !(e.rodada == rodada))
        = l.filter (fun e => !(e.rodada == rodada)) := by
  intro l
  induction l with
  | nil => rfl
  | cons e es ih =>
    by_cases he : e.rodada == rodada
    · simp only [updateFirst, if_pos he]
      simp [List.filter_cons, hf, he]
    · simp only [updateFirst, if_neg he, List.filter_cons, ih]

theorem updateFirst_find? (f : Entrada → Entrada) (rodada : Int)
    (hf : ∀ e, (f e).rodada = e.rodada) :
    ∀ (l : List Entrada) (e : Entrada),
      l.find? (fun e => e.rodada == rodada) = some e →
      (updateFirst f rodada l).find? (fun e => e.rodada == rodada) = some (f e) := by
  intro l
  induction l with
  | nil => intro e h; cases h
  | cons a es ih =>
    intro e h
    by_cases ha : a.rodada == rodada
    · simp only [List.find?_cons, ha] at h
      injection h with h
      subst h
      simp only [updateFirst, if_pos ha]
      simp [List.find?_cons, hf, ha]
    · have ha2 : (a.rodada == rodada) = false := by simpa using ha
      simp only [List.find?_cons, ha2] at h
      rw [show updateFirst f rodada (a :: es) = a :: updateFirst f rodada es from by
        simp only [updateFirst, if_neg ha]]
      simp only [List.find?_cons, ha2]
      exact ih e h

theorem updateFirst_updateFirst (f g : Entrada → Entrada) (rodada : Int)
    (hf : ∀ e, (f e).rodada = e.rodada) :
    ∀ l : List Entrada,
      updateFirst g rodada (updateFirst f rodada l)
        = updateFirst (fun e => g (f e)) rodada l := by
  intro l
  induction l with
  | nil => rfl
  | cons e es ih =>
    by_cases he : e.rodada == rodada
    · simp only [updateFirst, if_pos he]
      rw [show ((f e).rodada == rodada) = true from by
        rw [hf]; exact he]
      simp only [if_true]
    · simp only [updateFirst, if_neg he, ih]

theorem updateFirst_append_of_none (f : Entrada → Entrada) (rodada : Int) :
    ∀ (l l2 : List Entrada),
      l.find? (fun e => e.rodada == rodada) = none →
      updateFirst f rodada (l ++ l2) = l ++ updateFirst f rodada l2 := by
  intro l
  induction l with
  | nil => intro l2 _; rfl
  | cons a es ih =>
    intro l2 h
    by_cases ha : a.rodada == rodada
    · simp only [List.find?_cons, ha] at h
      cases h
    · have ha2 : (a.rodada == rodada) = false := by simpa using ha
      simp only [List.find?_cons, ha2] at h
      simp only [List.cons_append, updateFirst, if_neg ha]
      exact congrArg (List.cons a) (ih l2 h)

/-- The new predictions all have their own id among the new ids, so the
replacement filter removes each of them. -/
theorem filter_novos_eq_nil (P : List PalpiteValidado) :
    P.filter (fun j => !((P.map (fun p => p.id)).contains j.id)) = [] := by
  rw [List.filter_eq_nil_iff]
  intro j hj
  have hmem : j.id ∈ P.map (fun p => p.id) := by
    simp only [List.mem_map]
    exact ⟨j, hj, rfl⟩
  have hc : (P.map (fun p => p.id)).contains j.id = true := by
    rw [List.contains_iff_exists_mem_beq]
    exact ⟨j.id, hmem, by simp⟩
  rw [hc]
  decide

/-- Applying the update body twice with the same predictions (and no extra
bets) is the same as applying it once with the later timestamp. -/
theorem aplicarPalpites_idem (e : Entrada) (P : List PalpiteValidado) (agora agora2 : String) :
    aplicarPalpites (aplicarPalpites e P [] agora) P [] agora2
      = aplicarPalpites e P [] agora2 := by
  simp only [aplicarPalpites, List.isEmpty_nil, if_true]
  simp only [List.filter_append, List.filter_filter, filter_novos_eq_nil, List.append_nil]
  congr 1
  congr 1
  apply List.filter_congr
  intro j _
  cases h : (P.map (fun p => p.id)).contains j.id <;> simp [h]

/-- C5: updating a participant's round-`r` predictions with a validated
list `P` (no extra bets) leaves entries for other rounds unchanged; the
round-`r` entry afterwards holds exactly the previously stored predictions
whose game id does not occur in `P`, followed by `P` (a fresh entry with
exactly `P` when no round-`r` entry existed); and applying the same update
twice equals applying it once (no duplicates are introduced), up to the
refreshed timestamp. -/
theorem atualizar_palpites_participante_spec (dados : Participante) (rodada : Int)
    (P : List PalpiteValidado) (agora agora2 : String) :
    ((atualizar_palpites_participante dados rodada P [] agora).palpites.filter
        (fun e => !(e.rodada == rodada)))
      = dados.palpites.filter (fun e => !(e.rodada == rodada))
    ∧ (∀ e, dados.palpites.find? (fun e => e.rodada == rodada) = some e →
        (atualizar_palpites_participante dados rodada P [] agora).palpites.find?
            (fun e => e.rodada == rodada)
          = some { e with
                     data_palpite := agora,
                     jogos := (e.jogos.filter
                       (fun j => !((P.map (fun p => p.id)).contains j.id))) ++ P })
    ∧ (dados.palpites.find? (fun e => e.rodada == rodada) = none →
        (atualizar_palpites_participante dados rodada P [] agora).palpites.find?
            (fun e => e.rodada == rodada)
          = some ⟨rodada, agora, P, []⟩)
    ∧ atualizar_palpites_participante
        (atualizar_palpites_participante dados rodada P [] agora) rodada P [] agora2
      = atualizar_palpites_participante dados rodada P [] agora2 := by
  have hpreserva : ∀ e, (aplicarPalpites e P [] agora).rodada = e.rodada := by
    intro e
    simp [aplicarPalpites]
  have hnovo : aplicarPalpites ⟨rodada, agora, [], []⟩ P [] agora
      = ⟨rodada, agora, P, []⟩ := by
    simp [aplicarPalpites]
  refine ⟨?_, ?_, ?_, ?_⟩
  · unfold atualizar_palpites_participante
    cases hfind : dados.palpites.find? (fun entrada => entrada.rodada == rodada) with
    | some e =>
      exact updateFirst_filter_ne _ rodada hpreserva dados.palpites
    | none =>
      simp only [List.filter_append, hnovo]
      rw [show ([(⟨rodada, agora, P, []⟩ : Entrada)].filter
          (fun e => !(e.rodada == rodada))) = [] from by simp]
      simp
  · intro e hfind
    unfold atualizar_palpites_participante
    rw [hfind]
    have h := updateFirst_find? _ rodada hpreserva dados.palpites e hfind
    rw [h]
    simp only [aplicarPalpites, List.isEmpty_nil, if_true]
  · intro hfind
    unfold atualizar_palpites_participante
    rw [hfind]
    simp only [List.find?_append, hfind, Option.none_or, hnovo]
    simp [List.find?_cons]
  · unfold atualizar_palpites_participante
    cases hfind : dados.palpites.find? (fun entrada => entrada.rodada == rodada) with
    | some e =>
      have h1 := updateFirst_find? (fun e => aplicarPalpites e P [] agora) rodada
        hpreserva dados.palpites e hfind
      simp only [h1]
      rw [updateFirst_updateFirst _ _ rodada hpreserva]
      have hcomp : (fun e => aplicarPalpites (aplicarPalpites e P [] agora) P [] agora2)
          = (fun e => aplicarPalpites e P [] agora2) := by
        funext x
        exact aplicarPalpites_idem x P agora agora2
      rw [hcomp]
    | none =>
      have hfindap : (dados.palpites
          ++ [aplicarPalpites ⟨rodada, agora, [], []⟩ P [] agora]).find?
            (fun entrada => entrada.rodada == rodada)
          = some (aplicarPalpites ⟨rodada, agora, [], []⟩ P [] agora) := by
        rw [List.find?_append, hfind, Option.none_or, hnovo]
        simp [List.find?_cons]
      simp only [hfindap]
      rw [updateFirst_append_of_none _ rodada dados.palpites _ hfind]
      congr 1
      rw [hnovo]
      simp only [updateFirst]
      rw [show ((⟨rodada, agora, P, []⟩ : Entrada).rodada == rodada) = true from by simp]
      simp only [if_true]
      rw [show aplicarPalpites ⟨rodada, agora, P, []⟩ P [] agora2
          = ⟨rodada, agora2, P, []⟩ from by
        simp [aplicarPalpites, filter_novos_eq_nil]
        intro a ha
        exact ⟨a, ha, rfl⟩]
      rw [show aplicarPalpites ⟨rodada, agora2, [], []⟩ P [] agora2
          = ⟨rodada, agora2, P, []⟩ from by simp [aplicarPalpites]]

/-- C5 witness: an existing round-1 entry keeps its prediction for another
game, the resubmitted game is replaced without duplication, the round-2
entry is untouched, and re-applying the update changes nothing further. -/
theorem atualizar_palpites_participante_spec_witness :
    ((atualizar_palpites_participante
        ⟨[⟨1, "t0", [⟨"g1", "A", "B", 0, 0, none, none⟩,
                     ⟨"g2", "C", "D", 1, 1, none, none⟩], []⟩,
          ⟨2, "t0", [⟨"g9", "E", "F", 3, 3, none, none⟩], []⟩]⟩
        1 [⟨"g1", "A", "B", 2, 1, none, none⟩] [] "t1").palpites.filter
        (fun e => !(e.rodada == 1)))
      = [⟨2, "t0", [⟨"g9", "E", "F", 3, 3, none, none⟩], []⟩]
    ∧ (atualizar_palpites_participante
        ⟨[⟨1, "t0", [⟨"g1", "A", "B", 0, 0, none, none⟩,
                     ⟨"g2", "C", "D", 1, 1, none, none⟩], []⟩,
          ⟨2, "t0", [⟨"g9", "E", "F", 3, 3, none, none⟩], []⟩]⟩
        1 [⟨"g1", "A", "B", 2, 1, none, none⟩] [] "t1").palpites.find?
        (fun e => e.rodada == 1)
      = some ⟨1, "t1", [⟨"g2", "C", "D", 1, 1, none, none⟩,
                        ⟨"g1", "A", "B", 2, 1, none, none⟩], []⟩
    ∧ atualizar_palpites_participante
        (atualizar_palpites_participante
          ⟨[⟨1, "t0", [⟨"g1", "A", "B", 0, 0, none, none⟩,
                       ⟨"g2", "C", "D", 1, 1, none, none⟩], []⟩,
            ⟨2, "t0", [⟨"g9", "E", "F", 3, 3, none, none⟩], []⟩]⟩
          1 [⟨"g1", "A", "B", 2, 1, none, none⟩] [] "t1")
        1 [⟨"g1", "A", "B", 2, 1, none, none⟩] [] "t1"
      = atualizar_palpites_participante
          ⟨[⟨1, "t0", [⟨"g1", "A", "B", 0, 0, none, none⟩,
                       ⟨"g2", "C", "D", 1, 1, none, none⟩], []⟩,
            ⟨2, "t0", [⟨"g9", "E", "F", 3, 3, none, none⟩], []⟩]⟩
          1 [⟨"g1", "A", "B", 2, 1, none, none⟩] [] "t1" := by
  refine ⟨?_, ?_, ?_⟩
  · have h := (atualizar_palpites_participante_spec
      ⟨[⟨1, "t0", [⟨"g1", "A", "B", 0, 0, none, none⟩,
                   ⟨"g2", "C", "D", 1, 1, none, none⟩], []⟩,
        ⟨2, "t0", [⟨"g9", "E", "F", 3, 3, none, none⟩], []⟩]⟩
      1 [⟨"g1", "A", "B", 2, 1, none, none⟩] "t1" "t1").1
    rw [h]
    decide
  · have h := (atualizar_palpites_participante_spec
      ⟨[⟨1, "t0", [⟨"g1", "A", "B", 0, 0, none, none⟩,
                   ⟨"g2", "C", "D", 1, 1, none, none⟩], []⟩,
        ⟨2, "t0", [⟨"g9", "E", "F", 3, 3, none, none⟩], []⟩]⟩
      1 [⟨"g1", "A", "B", 2, 1, none, none⟩] "t1" "t1").2.1
      ⟨1, "t0", [⟨"g1", "A", "B", 0, 0, none, none⟩,
                 ⟨"g2", "C", "D", 1, 1, none, none⟩], []⟩ (by decide)
    rw [h]
    decide
  · exact (atualizar_palpites_participante_spec
      ⟨[⟨1, "t0", [⟨"g1", "A", "B", 0, 0, none, none⟩,
                   ⟨"g2", "C", "D", 1, 1, none, none⟩], []⟩,
        ⟨2, "t0", [⟨"g9", "E", "F", 3, 3, none, none⟩], []⟩]⟩
      1 [⟨"g1", "A", "B", 2, 1, none, none⟩] "t1" "t1").2.2.2

end Bolao
